import Mathlib

/-! A shallow embedding of go-userapi, the user CRUD service.

The development follows the layout of the repository:

* `models/user.go`: the `User` entity, `emailRegex` and `User.Validate`;
* `repository/user_repository.go`: the `UserRepository` interface;
* `repository/mysql_user_repository.go`: the relational implementation, written over the
  `database/sql` calls it makes;
* `handlers/user_handler.go`: the five HTTP handlers and the two response helpers;
* `handlers/user_handler_test.go`: the in-memory `mockUserRepository` of the tests.

Go strings are modelled as Lean strings (sequences of Unicode code points), Go `int` and
`int64` values as `Int`, a Go `error` as `Option GoError` (`none` is `nil`), and a slice as
`Option (List _)` so that the nil slice and the empty slice stay distinct.  Log output is not
modelled: the `log.Printf` calls have no effect on any value the program returns or sends.
-/

namespace UserAPI

/-! ## Go values -/

/-- Go error values, as far as the program can tell them apart: the sentinel
`sql.ErrNoRows`, an error carrying a text (`errors.New`, `fmt.Errorf` without `%w`, or an
error coming out of a library), and an error wrapping another one
(`fmt.Errorf("<msg>: %w", cause)`). -/
inductive GoError where
  | ErrNoRows : GoError
  | New (msg : String) : GoError
  | Wrap (msg : String) (cause : GoError) : GoError
deriving DecidableEq, Repr

/-- The method `Error()` of an error value. -/
def GoError.Error : GoError → String
  | .ErrNoRows => "sql: no rows in result set"
  | .New msg => msg
  | .Wrap msg cause => msg ++ ": " ++ cause.Error

/-- The verb `%d` of `fmt`: a signed integer in base 10, with a leading `-` when negative. -/
def decimal (n : Int) : String :=
  if n < 0 then "-" ++ Nat.repr n.natAbs else Nat.repr n.natAbs

/-- A Go slice: `none` is the nil slice, `some xs` a non-nil slice with elements `xs`. -/
abbrev Slice (α : Type) := Option (List α)

/-- The builtin `append(s, x)`: appending to the nil slice allocates. -/
def Slice.append {α : Type} : Slice α → α → Slice α
  | none, x => some [x]
  | some xs, x => some (xs ++ [x])

/-- The builtin `len(s)`. -/
def Slice.len {α : Type} : Slice α → Nat
  | none => 0
  | some xs => xs.length

/-! ## Regular expressions (package `regexp`)

The pattern of `emailRegex` uses character classes, concatenation, `+` and `{2,}`, anchored
at both ends.  Without the `m` flag `^` and `$` match only at the beginning and the end of
the text, so `MatchString` holds when the whole text is in the language of the expression
between the anchors.  Matching is by Brzozowski derivatives. -/

/-- A bracket expression `[...]`, as the list of its inclusive ranges (a single character
`c` is the range `c-c`). -/
abbrev CharClass := List (Char × Char)

/-- Membership of a character in a bracket expression. -/
def CharClass.mem (k : CharClass) (c : Char) : Bool :=
  k.any fun r => decide (r.1 ≤ c) && decide (c ≤ r.2)

/-- Regular expressions over characters. -/
inductive Regex where
  | empty : Regex
  | eps : Regex
  | cls : CharClass → Regex
  | cat : Regex → Regex → Regex
  | alt : Regex → Regex → Regex
  | star : Regex → Regex

namespace Regex

/-- A literal character, such as `@` or the escaped `\.`. -/
def lit (c : Char) : Regex := cls [(c, c)]

/-- The form `r+`: one or more repetitions. -/
def plus (r : Regex) : Regex := cat r (star r)

/-- The form `r{n,}`: at least `n` repetitions. -/
def atLeast : Nat → Regex → Regex
  | 0, r => star r
  | n + 1, r => cat r (atLeast n r)

/-- Whether the expression matches the empty text. -/
def nullable : Regex → Bool
  | empty => false
  | eps => true
  | cls _ => false
  | cat r s => nullable r && nullable s
  | alt r s => nullable r || nullable s
  | star _ => true

/-- The Brzozowski derivative of an expression by a character. -/
def deriv : Regex → Char → Regex
  | empty, _ => empty
  | eps, _ => empty
  | cls k, c => if k.mem c then eps else empty
  | cat r s, c =>
    if nullable r then alt (cat (deriv r c) s) (deriv s c) else cat (deriv r c) s
  | alt r s, c => alt (deriv r c) (deriv s c)
  | star r, c => cat (deriv r c) (star r)

/-- Whether the whole list of characters is matched. -/
def matchList : Regex → List Char → Bool
  | r, [] => nullable r
  | r, c :: cs => matchList (deriv r c) cs

/-- The method `MatchString` of an expression anchored with `^` and `$`. -/
def MatchString (r : Regex) (s : String) : Bool := matchList r s.data

/-- The language of an expression, as a derivation system. -/
inductive Matches : Regex → List Char → Prop
  | eps : Matches eps []
  | cls {k : CharClass} {c : Char} : k.mem c = true → Matches (cls k) [c]
  | cat {r s : Regex} {x y : List Char} :
      Matches r x → Matches s y → Matches (cat r s) (x ++ y)
  | altL {r s : Regex} {x : List Char} : Matches r x → Matches (alt r s) x
  | altR {r s : Regex} {x : List Char} : Matches s x → Matches (alt r s) x
  | starNil {r : Regex} : Matches (star r) []
  | starCons {r : Regex} {x y : List Char} :
      Matches r x → Matches (star r) y → Matches (star r) (x ++ y)

end Regex

/-! ## models/user.go -/

/-- The struct `User`. -/
structure User where
  ID : Int
  Name : String
  Age : Int
  PhoneNumber : String
  Email : String
deriving DecidableEq, Repr

/-- The bracket expression `[a-zA-Z0-9._%+-]`. -/
def localClass : CharClass :=
  [('a', 'z'), ('A', 'Z'), ('0', '9'), ('.', '.'), ('_', '_'), ('%', '%'), ('+', '+'),
    ('-', '-')]

/-- The bracket expression `[a-zA-Z0-9.-]`. -/
def domainClass : CharClass :=
  [('a', 'z'), ('A', 'Z'), ('0', '9'), ('.', '.'), ('-', '-')]

/-- The bracket expression `[a-zA-Z]`. -/
def letterClass : CharClass := [('a', 'z'), ('A', 'Z')]

/-- The compiled pattern `^[a-zA-Z0-9._%+-]+@[a-zA-Z0-9.-]+\.[a-zA-Z]{2,}$`. -/
def emailRegex : Regex :=
  .cat (.plus (.cls localClass))
    (.cat (.lit '@')
      (.cat (.plus (.cls domainClass))
        (.cat (.lit '.') (.atLeast 2 (.cls letterClass)))))

/-- The method `Validate`: the five checks in the order of the source, each returning its
error at once; `none` is the `nil` of the last line. -/
def User.Validate (u : User) : Option GoError :=
  if u.Name = "" then some (.New "name is required")
  else if u.Age ≤ 0 then some (.New ("age must be positive, got: " ++ decimal u.Age))
  else if u.PhoneNumber = "" then some (.New "phone number is required")
  else if u.Email = "" then some (.New "email is required")
  else if !emailRegex.MatchString u.Email then
    some (.New ("invalid email format: " ++ u.Email))
  else none

/-! ## The email pattern in words -/

/-- An ASCII letter. -/
def IsLetter (c : Char) : Prop := ('a' ≤ c ∧ c ≤ 'z') ∨ ('A' ≤ c ∧ c ≤ 'Z')

/-- An ASCII digit. -/
def IsDigit (c : Char) : Prop := '0' ≤ c ∧ c ≤ '9'

/-- A character allowed before the `@`: a letter, a digit or one of `. _ % + -`. -/
def IsLocalChar (c : Char) : Prop :=
  IsLetter c ∨ IsDigit c ∨ c = '.' ∨ c = '_' ∨ c = '%' ∨ c = '+' ∨ c = '-'

/-- A character allowed between the `@` and the last dot: a letter, a digit, `.` or `-`. -/
def IsDomainChar (c : Char) : Prop := IsLetter c ∨ IsDigit c ∨ c = '.' ∨ c = '-'

/-- The pattern `^[a-zA-Z0-9._%+-]+@[a-zA-Z0-9.-]+\.[a-zA-Z]{2,}$` read as a description of
the text: a non-empty run of local characters, an `@`, a non-empty run of domain
characters, a dot, and at least two letters up to the end of the text. -/
def MatchesEmailPattern (s : String) : Prop :=
  ∃ loc dom tld : List Char,
    s.data = loc ++ '@' :: (dom ++ '.' :: tld) ∧
    loc ≠ [] ∧ (∀ c ∈ loc, IsLocalChar c) ∧
    dom ≠ [] ∧ (∀ c ∈ dom, IsDomainChar c) ∧
    2 ≤ tld.length ∧ (∀ c ∈ tld, IsLetter c)

/-- A white-space character: the code points with the Unicode property White_Space, that
is tab, line feed, vertical tab, form feed, carriage return (U+0009 to U+000D), space,
U+0085, U+00A0, U+1680, U+2000 to U+200A, U+2028, U+2029, U+202F, U+205F and U+3000. -/
def IsSpace (c : Char) : Prop :=
  (9 ≤ c.toNat ∧ c.toNat ≤ 13) ∨ c.toNat = 32 ∨ c.toNat = 0x85 ∨ c.toNat = 0xA0 ∨
    c.toNat = 0x1680 ∨ (0x2000 ≤ c.toNat ∧ c.toNat ≤ 0x200A) ∨ c.toNat = 0x2028 ∨
    c.toNat = 0x2029 ∨ c.toNat = 0x202F ∨ c.toNat = 0x205F ∨ c.toNat = 0x3000

/-! ## Packages `strconv`, `encoding/json` and `net/http` -/

/-- The call `strconv.ParseInt(s, 10, 64)`: an optional sign, then one or more decimal
digits and nothing else, and the value must fit a signed 64-bit integer; `none` stands for
the returned error (a syntax error or a range error). -/
def ParseInt (s : String) : Option Int :=
  let ds := match s.data with
    | '+' :: rest => rest
    | '-' :: rest => rest
    | cs => cs
  if ds = [] ∨ ¬ ds.all Char.isDigit then none
  else
    let un := ds.foldl (fun acc c => 10 * acc + (c.toNat - '0'.toNat)) 0
    if s.data.head? = some '-' then
      if un ≤ 2 ^ 63 then some (-(un : Int)) else none
    else
      if un < 2 ^ 63 then some (un : Int) else none

/-- JSON values. -/
inductive JSON where
  | null : JSON
  | number (n : Int) : JSON
  | string (s : String) : JSON
  | array (items : List JSON) : JSON
  | object (members : List (String × JSON)) : JSON

/-- The struct `ErrorResponse`. -/
structure ErrorResponse where
  Error : String

/-- The Go values the handlers hand to `encoding/json` (the `interface{}` argument of
`json.Marshal` and `Encode`): an `ErrorResponse`, a `User` (by value or through a non-nil
pointer), a slice of users, and the `map[string]string` of the ping handler. -/
inductive Payload where
  | errorResponse (e : ErrorResponse) : Payload
  | user (u : User) : Payload
  | users (us : Slice User) : Payload
  | stringMap (m : List (String × String)) : Payload

/-- The JSON object of a `User`, with the member names of the struct tags. -/
def User.toJSON (u : User) : JSON :=
  .object [("id", .number u.ID), ("name", .string u.Name), ("age", .number u.Age),
    ("phone_number", .string u.PhoneNumber), ("email", .string u.Email)]

/-- The function `json.Marshal` on these values: a struct is an object with the member
names of its tags, a nil slice is the value `null`, a non-nil slice is an array, a map is an
object.  None of these values makes it fail. -/
def Marshal : Payload → Except GoError JSON
  | .errorResponse e => .ok (.object [("error", .string e.Error)])
  | .user u => .ok u.toJSON
  | .users none => .ok .null
  | .users (some us) => .ok (.array (us.map User.toJSON))
  | .stringMap m => .ok (.object (m.map fun kv => (kv.1, .string kv.2)))

def StatusOK : Nat := 200
def StatusCreated : Nat := 201
def StatusNoContent : Nat := 204
def StatusBadRequest : Nat := 400
def StatusNotFound : Nat := 404
def StatusInternalServerError : Nat := 500

/-- An `http.ResponseWriter`, recorded as `httptest.ResponseRecorder` records it: the
header map, whether the status line has been written, the status code (200 until one is
written) and the JSON values written to the body, in order. -/
structure ResponseWriter where
  Header : List (String × String)
  wroteHeader : Bool
  Code : Nat
  Body : List JSON

/-- The recorder before the handler runs (`httptest.NewRecorder`). -/
def NewRecorder : ResponseWriter := ⟨[], false, 200, []⟩

/-- The call `w.Header().Set(key, value)`; once the status line is written the headers
sent no longer change. -/
def ResponseWriter.Set (w : ResponseWriter) (key value : String) : ResponseWriter :=
  if w.wroteHeader then w
  else { w with Header := (key, value) :: w.Header.filter fun kv => kv.1 ≠ key }

/-- The call `w.WriteHeader(code)`; only the first call counts. -/
def ResponseWriter.WriteHeader (w : ResponseWriter) (code : Nat) : ResponseWriter :=
  if w.wroteHeader then w else { w with wroteHeader := true, Code := code }

/-- The call `w.Write(b)`: writes the status line with 200 first if none was written. -/
def ResponseWriter.Write (w : ResponseWriter) (b : JSON) : ResponseWriter :=
  let w1 := w.WriteHeader StatusOK
  { w1 with Body := w1.Body ++ [b] }

/-- The call `json.NewEncoder(w).Encode(v)`, whose returned error the handlers drop. -/
def Encode (w : ResponseWriter) (v : Payload) : ResponseWriter :=
  match Marshal v with
  | .ok b => w.Write b
  | .error _ => w

/-- An `*http.Request` as the handlers read it: the route variables `mux.Vars(r)` and the
outcome of `json.NewDecoder(r.Body).Decode(&user)` on a zero `User`, either the decoded
user or the decoding error. -/
structure Request where
  Vars : List (String × String)
  Body : Except GoError User

/-- The expression `mux.Vars(r)[key]`: the empty string for a missing key. -/
def Request.Var (r : Request) (key : String) : String := (r.Vars.lookup key).getD ""

/-! ## repository/user_repository.go -/

/-- The interface `UserRepository` over a store of type `σ`.  A method that takes a
`*models.User` returns the user as the call leaves it behind the pointer; the results are
the Go result tuples (the context argument carries no data and is dropped). -/
structure UserRepository (σ : Type) where
  Create : User → σ → (User × Option GoError) × σ
  GetByID : Int → σ → (Option User × Option GoError) × σ
  Update : User → σ → (User × Option GoError) × σ
  Delete : Int → σ → Option GoError × σ
  List : σ → (Slice User × Option GoError) × σ

/-! ## Package `database/sql`, as the relational repository uses it -/

/-- An argument bound to a `?` placeholder. -/
inductive Value where
  | int (n : Int) : Value
  | text (s : String) : Value
deriving DecidableEq, Repr

/-- An `sql.Result`: what `LastInsertId()` and `RowsAffected()` return. -/
structure Result where
  LastInsertId : Except GoError Int
  RowsAffected : Except GoError Int

/-- The values `Scan` stores into its five destinations `&user.ID, &user.Name, &user.Age,
&user.PhoneNumber, &user.Email`, in that order. -/
abbrev ScannedRow := Int × String × Int × String × String

/-- An `*sql.Rows`: for each row `Next()` delivers, the outcome of `Scan` on it, and what
`Err()` returns once `Next()` has returned false. -/
structure Rows where
  scans : List (Except GoError ScannedRow)
  Err : Option GoError

/-- The three calls the repository makes on `*sql.DB`, over a store of type `δ`:
`ExecContext(ctx, query, args...)`, `QueryRowContext(ctx, query, args...).Scan(...)` (with
`sql.ErrNoRows` when the query has no row) and `QueryContext(ctx, query, args...)`. -/
structure DB (δ : Type) where
  ExecContext : String → List Value → δ → Except GoError Result × δ
  QueryRowContext : String → List Value → δ → Except GoError ScannedRow × δ
  QueryContext : String → List Value → δ → Except GoError Rows × δ

/-! ## repository/mysql_user_repository.go -/

namespace mysqlUserRepository

variable {δ : Type}

/-- The statement `query` of `Create`. -/
def createQuery : String :=
  "INSERT INTO users (name, age, phone_number, email) VALUES (?, ?, ?, ?)"

/-- The arguments `Create` binds: `user.Name, user.Age, user.PhoneNumber, user.Email`. -/
def createArgs (user : User) : List Value :=
  [.text user.Name, .int user.Age, .text user.PhoneNumber, .text user.Email]

/-- The statement `query` of `GetByID`. -/
def getByIDQuery : String :=
  "SELECT id, name, age, phone_number, email FROM users WHERE id = ?"

/-- The statement `query` of `Update`. -/
def updateQuery : String :=
  "UPDATE users SET name = ?, age = ?, phone_number = ?, email = ? WHERE id = ?"

/-- The arguments `Update` binds: `user.Name, user.Age, user.PhoneNumber, user.Email,
user.ID`. -/
def updateArgs (user : User) : List Value :=
  [.text user.Name, .int user.Age, .text user.PhoneNumber, .text user.Email, .int user.ID]

/-- The statement `query` of `Delete`. -/
def deleteQuery : String := "DELETE FROM users WHERE id = ?"

/-- The statement `query` of `List`. -/
def listQuery : String := "SELECT id, name, age, phone_number, email FROM users"

def Create (db : DB δ) (user : User) (s : δ) : (User × Option GoError) × δ :=
  match db.ExecContext createQuery (createArgs user) s with
  | (.error err, s1) => ((user, some (.Wrap "failed to create user" err)), s1)
  | (.ok result, s1) =>
    match result.LastInsertId with
    | .error err => ((user, some (.Wrap "failed to get last insert ID" err)), s1)
    | .ok id => (({ user with ID := id }, none), s1)

def GetByID (db : DB δ) (id : Int) (s : δ) : (Option User × Option GoError) × δ :=
  match db.QueryRowContext getByIDQuery [.int id] s with
  | (.error err, s1) =>
    if err = .ErrNoRows then ((none, none), s1)
    else ((none, some (.Wrap "failed to fetch user" err)), s1)
  | (.ok (cID, cName, cAge, cPhoneNumber, cEmail), s1) =>
    ((some ⟨cID, cName, cAge, cPhoneNumber, cEmail⟩, none), s1)

def Update (db : DB δ) (user : User) (s : δ) : (User × Option GoError) × δ :=
  match db.ExecContext updateQuery (updateArgs user) s with
  | (.error err, s1) => ((user, some (.Wrap "failed to update user" err)), s1)
  | (.ok result, s1) =>
    match result.RowsAffected with
    | .error err => ((user, some (.Wrap "failed to get rows affected" err)), s1)
    | .ok rowsAffected =>
      if rowsAffected = 0 then
        ((user, some (.New ("user not found with ID: " ++ decimal user.ID))), s1)
      else ((user, none), s1)

def Delete (db : DB δ) (id : Int) (s : δ) : Option GoError × δ :=
  match db.ExecContext deleteQuery [.int id] s with
  | (.error err, s1) => (some (.Wrap "failed to delete user" err), s1)
  | (.ok result, s1) =>
    match result.RowsAffected with
    | .error err => (some (.Wrap "failed to get rows affected" err), s1)
    | .ok rowsAffected =>
      if rowsAffected = 0 then (some (.New ("user not found with ID: " ++ decimal id)), s1)
      else (none, s1)

/-- The loop `for rows.Next()` of `List`: scans each row into a fresh user and appends it
to `users`; a scan error leaves the function at once. -/
def scanLoop : List (Except GoError ScannedRow) → Slice User → Except GoError (Slice User)
  | [], users => .ok users
  | .error err :: _, _ => .error (.Wrap "failed to scan user" err)
  | .ok (cID, cName, cAge, cPhoneNumber, cEmail) :: rest, users =>
    scanLoop rest (users.append ⟨cID, cName, cAge, cPhoneNumber, cEmail⟩)

/-- The method `List`; `users` starts as the declaration `var users []*models.User` leaves
it, the nil slice. -/
def List (db : DB δ) (s : δ) : (Slice User × Option GoError) × δ :=
  match db.QueryContext listQuery [] s with
  | (.error err, s1) => ((none, some (.Wrap "failed to fetch users" err)), s1)
  | (.ok rows, s1) =>
    let users : Slice User := none
    match scanLoop rows.scans users with
    | .error err => ((none, some err), s1)
    | .ok users1 =>
      match rows.Err with
      | some err => ((none, some (.Wrap "failed to iterate users" err)), s1)
      | none => ((users1, none), s1)

end mysqlUserRepository

/-- The constructor `NewMySQLUserRepository`. -/
def NewMySQLUserRepository {δ : Type} (db : DB δ) : UserRepository δ where
  Create := mysqlUserRepository.Create db
  GetByID := mysqlUserRepository.GetByID db
  Update := mysqlUserRepository.Update db
  Delete := mysqlUserRepository.Delete db
  List := mysqlUserRepository.List db

/-! ## handlers/user_handler.go and handlers/ping_handler.go -/

/-- A call a handler makes on its repository, with the arguments passed. -/
inductive RepoCall where
  | Create (user : User) : RepoCall
  | GetByID (id : Int) : RepoCall
  | Update (user : User) : RepoCall
  | Delete (id : Int) : RepoCall
  | List : RepoCall
deriving DecidableEq, Repr

/-- What running a handler leaves behind: the response writer, the store of the repository,
and the calls made on the repository, in order. -/
structure Outcome (σ : Type) where
  w : ResponseWriter
  store : σ
  calls : List RepoCall

def respondWithJSON (w : ResponseWriter) (code : Nat) (payload : Payload) : ResponseWriter :=
  match Marshal payload with
  | .error _ => w.WriteHeader StatusInternalServerError
  | .ok response => ((w.Set "Content-Type" "application/json").WriteHeader code).Write response

def respondWithError (w : ResponseWriter) (code : Nat) (message : String) : ResponseWriter :=
  respondWithJSON w code (.errorResponse ⟨message⟩)

namespace UserHandler

variable {σ : Type}

def Create (repo : UserRepository σ) (w : ResponseWriter) (r : Request) (s : σ) :
    Outcome σ :=
  match r.Body with
  | .error err =>
    ⟨respondWithError w StatusBadRequest ("Invalid request payload: " ++ err.Error), s, []⟩
  | .ok user =>
    match user.Validate with
    | some err => ⟨respondWithError w StatusBadRequest err.Error, s, []⟩
    | none =>
      match repo.Create user s with
      | ((_, some _), s1) =>
        ⟨respondWithError w StatusInternalServerError "Error creating user", s1,
          [.Create user]⟩
      | ((user1, none), s1) =>
        ⟨Encode ((w.Set "Content-Type" "application/json").WriteHeader StatusCreated)
          (.user user1), s1, [.Create user]⟩

def GetByID (repo : UserRepository σ) (w : ResponseWriter) (r : Request) (s : σ) :
    Outcome σ :=
  match ParseInt (r.Var "id") with
  | none => ⟨respondWithError w StatusBadRequest "Invalid user ID", s, []⟩
  | some id =>
    match repo.GetByID id s with
    | ((_, some _), s1) =>
      ⟨respondWithError w StatusInternalServerError "Error retrieving user", s1,
        [.GetByID id]⟩
    | ((none, none), s1) =>
      ⟨respondWithError w StatusNotFound "User not found", s1, [.GetByID id]⟩
    | ((some user, none), s1) =>
      ⟨Encode (w.Set "Content-Type" "application/json") (.user user), s1, [.GetByID id]⟩

def Update (repo : UserRepository σ) (w : ResponseWriter) (r : Request) (s : σ) :
    Outcome σ :=
  match ParseInt (r.Var "id") with
  | none => ⟨respondWithError w StatusBadRequest "Invalid user ID", s, []⟩
  | some id =>
    match r.Body with
    | .error _ => ⟨respondWithError w StatusBadRequest "Invalid request payload", s, []⟩
    | .ok decoded =>
      let user : User := { decoded with ID := id }
      match user.Validate with
      | some err => ⟨respondWithError w StatusBadRequest err.Error, s, []⟩
      | none =>
        match repo.Update user s with
        | ((_, some err), s1) =>
          if err.Error = "user not found with ID: " ++ decimal id then
            ⟨respondWithError w StatusNotFound "User not found", s1, [.Update user]⟩
          else
            ⟨respondWithError w StatusInternalServerError "Error updating user", s1,
              [.Update user]⟩
        | ((user1, none), s1) =>
          ⟨Encode (w.Set "Content-Type" "application/json") (.user user1), s1,
            [.Update user]⟩

def Delete (repo : UserRepository σ) (w : ResponseWriter) (r : Request) (s : σ) :
    Outcome σ :=
  match ParseInt (r.Var "id") with
  | none => ⟨respondWithError w StatusBadRequest "Invalid user ID", s, []⟩
  | some id =>
    match repo.Delete id s with
    | (some err, s1) =>
      if err.Error = "user not found with ID: " ++ decimal id then
        ⟨respondWithError w StatusNotFound "User not found", s1, [.Delete id]⟩
      else
        ⟨respondWithError w StatusInternalServerError "Error deleting user", s1,
          [.Delete id]⟩
    | (none, s1) => ⟨w.WriteHeader StatusNoContent, s1, [.Delete id]⟩

def List (repo : UserRepository σ) (w : ResponseWriter) (_r : Request) (s : σ) :
    Outcome σ :=
  match repo.List s with
  | ((_, some _), s1) =>
    ⟨respondWithError w StatusInternalServerError "Error retrieving users", s1, [.List]⟩
  | ((users, none), s1) =>
    ⟨Encode (w.Set "Content-Type" "application/json") (.users users), s1, [.List]⟩

end UserHandler

/-- The handler `Ping`. -/
def PingHandler.Ping (w : ResponseWriter) (_r : Request) : ResponseWriter :=
  let response : List (String × String) := [("message", "pong")]
  Encode (w.Set "Content-Type" "application/json") (.stringMap response)

/-! ## handlers/user_handler_test.go: the in-memory repository of the tests -/

/-- The assignment `m[k] = v` on a map kept as a list of entries with distinct keys. -/
def mapSet (m : List (Int × User)) (k : Int) (v : User) : List (Int × User) :=
  if m.any (fun kv => kv.1 = k) then m.map fun kv => if kv.1 = k then (k, v) else kv
  else m ++ [(k, v)]

namespace mockUserRepository

def Create (user : User) (m : List (Int × User)) :
    (User × Option GoError) × List (Int × User) :=
  let user1 : User := { user with ID := (m.length : Int) + 1 }
  ((user1, none), mapSet m user1.ID user1)

def GetByID (id : Int) (m : List (Int × User)) :
    (Option User × Option GoError) × List (Int × User) :=
  match m.lookup id with
  | some user => ((some user, none), m)
  | none => ((none, none), m)

def Update (user : User) (m : List (Int × User)) :
    (User × Option GoError) × List (Int × User) :=
  match m.lookup user.ID with
  | none => ((user, none), m)
  | some _ => ((user, none), mapSet m user.ID user)

def Delete (id : Int) (m : List (Int × User)) : Option GoError × List (Int × User) :=
  (none, m.filter fun kv => kv.1 ≠ id)

/-- The method `List`: a non-nil slice made with `make`, filled from the map (here in the
order of the entries; Go leaves the order of a map range unspecified). -/
def List (m : List (Int × User)) : (Slice User × Option GoError) × List (Int × User) :=
  ((some (m.map fun kv => kv.2), none), m)

end mockUserRepository

/-- The constructor `newMockUserRepository`, as a `UserRepository` over its map; the map
starts empty. -/
def newMockUserRepository : UserRepository (List (Int × User)) where
  Create := mockUserRepository.Create
  GetByID := mockUserRepository.GetByID
  Update := mockUserRepository.Update
  Delete := mockUserRepository.Delete
  List := mockUserRepository.List

/-! ## The database behind the connection of `main.go`

The MySQL server and its driver are outside the repository.  The model below covers the
five statements the relational repository issues, on a table `users` whose `id` column is
the auto-increment key, with no further constraint.  What it takes from the server's
documented behaviour is the number `RowsAffected` reports for an `UPDATE`: the rows the
statement changed, unless the connection asks for the rows it found (`clientFoundRows=true`
in the data source name). -/

/-- The table `users`: its rows in storage order and the next auto-increment value. -/
structure Table where
  rows : List User
  nextID : Int
deriving DecidableEq, Repr

/-- The parameters of the data source name `main` builds,
`"%s:%s@tcp(%s:%s)/%s?parseTime=true"`: what follows the `?`. -/
def dsnParams : List (String × String) := [("parseTime", "true")]

/-- Whether a data source name switches `clientFoundRows` on (it is off by default). -/
def clientFoundRows (params : List (String × String)) : Bool :=
  params.lookup "clientFoundRows" == some "true"

namespace mysqlServer

def ExecContext (foundRows : Bool) (query : String) (args : List Value) (t : Table) :
    Except GoError Result × Table :=
  if query = mysqlUserRepository.createQuery then
    match args with
    | [.text name, .int age, .text phone, .text email] =>
      (.ok ⟨.ok t.nextID, .ok 1⟩,
        ⟨t.rows ++ [⟨t.nextID, name, age, phone, email⟩], t.nextID + 1⟩)
    | _ => (.error (.New "sql: wrong arguments"), t)
  else if query = mysqlUserRepository.updateQuery then
    match args with
    | [.text name, .int age, .text phone, .text email, .int id] =>
      let row : User := ⟨id, name, age, phone, email⟩
      let found := (t.rows.filter fun r => r.ID = id).length
      let changed := (t.rows.filter fun r => r.ID = id ∧ r ≠ row).length
      (.ok ⟨.ok 0, .ok (if foundRows then (found : Int) else (changed : Int))⟩,
        ⟨t.rows.map fun r => if r.ID = id then row else r, t.nextID⟩)
    | _ => (.error (.New "sql: wrong arguments"), t)
  else if query = mysqlUserRepository.deleteQuery then
    match args with
    | [.int id] =>
      (.ok ⟨.ok 0, .ok ((t.rows.filter fun r => r.ID = id).length : Int)⟩,
        ⟨t.rows.filter fun r => r.ID ≠ id, t.nextID⟩)
    | _ => (.error (.New "sql: wrong arguments"), t)
  else (.error (.New "sql: unknown statement"), t)

def QueryRowContext (query : String) (args : List Value) (t : Table) :
    Except GoError ScannedRow × Table :=
  if query = mysqlUserRepository.getByIDQuery then
    match args with
    | [.int id] =>
      match t.rows.find? fun r => r.ID = id with
      | some r => (.ok (r.ID, r.Name, r.Age, r.PhoneNumber, r.Email), t)
      | none => (.error .ErrNoRows, t)
    | _ => (.error (.New "sql: wrong arguments"), t)
  else (.error (.New "sql: unknown statement"), t)

def QueryContext (query : String) (_args : List Value) (t : Table) :
    Except GoError Rows × Table :=
  if query = mysqlUserRepository.listQuery then
    (.ok ⟨t.rows.map fun r => .ok (r.ID, r.Name, r.Age, r.PhoneNumber, r.Email), none⟩, t)
  else (.error (.New "sql: unknown statement"), t)

end mysqlServer

/-- A connection to the server, with `clientFoundRows` on or off. -/
def mysqlServer (foundRows : Bool) : DB Table where
  ExecContext := mysqlServer.ExecContext foundRows
  QueryRowContext := mysqlServer.QueryRowContext
  QueryContext := mysqlServer.QueryContext

/-- The connection `main` opens: `sql.Open("mysql", dsn)` with the parameters of its
data source name. -/
def mainDB : DB Table := mysqlServer (clientFoundRows dsnParams)

/-- A connection on which every call fails with the given driver error, as when the
server cannot be reached. -/
def brokenDB (cause : GoError) : DB Table where
  ExecContext := fun _ _ t => (.error cause, t)
  QueryRowContext := fun _ _ t => (.error cause, t)
  QueryContext := fun _ _ t => (.error cause, t)

/-! ## Theorems: the matcher computes the language of the expression -/

namespace Regex

theorem nullable_iff (r : Regex) : nullable r = true ↔ Matches r [] := by
  induction r with
  | empty => exact ⟨fun h => (by cases h), fun h => (by cases h)⟩
  | eps => exact ⟨fun _ => .eps, fun _ => rfl⟩
  | cls k => exact ⟨fun h => (by cases h), fun h => (by cases h)⟩
  | cat r s ihr ihs =>
    constructor
    · intro h
      simp only [nullable, Bool.and_eq_true] at h
      exact Matches.cat (ihr.1 h.1) (ihs.1 h.2)
    · intro h
      generalize hw : ([] : List Char) = w at h
      cases h with
      | cat hx hy =>
        obtain ⟨rfl, rfl⟩ := List.append_eq_nil.1 hw.symm
        simp only [nullable, Bool.and_eq_true]
        exact ⟨ihr.2 hx, ihs.2 hy⟩
  | alt r s ihr ihs =>
    constructor
    · intro h
      simp only [nullable, Bool.or_eq_true] at h
      exact h.elim (fun h => .altL (ihr.1 h)) (fun h => .altR (ihs.1 h))
    · intro h
      simp only [nullable, Bool.or_eq_true]
      cases h with
      | altL h => exact Or.inl (ihr.2 h)
      | altR h => exact Or.inr (ihs.2 h)
  | star r _ => exact ⟨fun _ => .starNil, fun _ => rfl⟩

theorem matches_of_deriv (r : Regex) (c : Char) (x : List Char) :
    Matches (deriv r c) x → Matches r (c :: x) := by
  induction r generalizing x with
  | empty => intro h; cases h
  | eps => intro h; cases h
  | cls k =>
    intro h
    by_cases hk : k.mem c = true
    · simp only [deriv, hk, if_true] at h
      cases h
      exact .cls hk
    · simp only [deriv, hk] at h
      cases h
  | cat r s ihr ihs =>
    intro h
    by_cases hn : nullable r = true
    · simp only [deriv, hn, if_true] at h
      cases h with
      | altL h =>
        cases h with
        | cat hx hy => exact Matches.cat (ihr _ hx) hy
      | altR h => exact Matches.cat ((nullable_iff r).1 hn) (ihs _ h)
    · simp only [deriv, hn] at h
      cases h with
      | cat hx hy => exact Matches.cat (ihr _ hx) hy
  | alt r s ihr ihs =>
    intro h
    cases h with
    | altL h => exact .altL (ihr _ h)
    | altR h => exact .altR (ihs _ h)
  | star r ih =>
    intro h
    cases h with
    | cat hx hy => exact Matches.starCons (ih _ hx) hy

theorem deriv_of_matches {r : Regex} {w : List Char} (h : Matches r w) :
    ∀ (c : Char) (x : List Char), w = c :: x → Matches (deriv r c) x := by
  induction h with
  | eps => intro c x hw; cases hw
  | cls hk =>
    intro c x hw
    cases hw
    simp only [deriv, hk, if_true]
    exact .eps
  | @cat r s x y hx hy ihx ihy =>
    intro c z hw
    cases x with
    | nil =>
      have hn : nullable r = true := (nullable_iff r).2 hx
      simp only [deriv, hn, if_true]
      exact .altR (ihy c z hw)
    | cons a x =>
      simp only [List.cons_append, List.cons.injEq] at hw
      obtain ⟨rfl, rfl⟩ := hw
      by_cases hn : nullable r = true
      · simp only [deriv, hn, if_true]
        exact .altL (Matches.cat (ihx _ _ rfl) hy)
      · simp only [deriv, hn]
        exact Matches.cat (ihx _ _ rfl) hy
  | altL h ih => intro c x hw; exact .altL (ih c x hw)
  | altR h ih => intro c x hw; exact .altR (ih c x hw)
  | starNil => intro c x hw; cases hw
  | @starCons r x y hx hy ihx ihy =>
    intro c z hw
    cases x with
    | nil => exact ihy c z hw
    | cons a x =>
      simp only [List.cons_append, List.cons.injEq] at hw
      obtain ⟨rfl, rfl⟩ := hw
      exact Matches.cat (ihx _ _ rfl) hy

theorem matchList_iff (r : Regex) (x : List Char) : matchList r x = true ↔ Matches r x := by
  induction x generalizing r with
  | nil => exact nullable_iff r
  | cons c x ih =>
    rw [matchList, ih]
    exact ⟨matches_of_deriv r c x, fun h => deriv_of_matches h c x rfl⟩

theorem matches_cls_iff (k : CharClass) (x : List Char) :
    Matches (cls k) x ↔ ∃ c, x = [c] ∧ k.mem c = true := by
  constructor
  · intro h
    cases h with
    | cls hk => exact ⟨_, rfl, hk⟩
  · rintro ⟨c, rfl, hk⟩
    exact .cls hk

theorem matches_cat_iff (r s : Regex) (x : List Char) :
    Matches (cat r s) x ↔ ∃ a b, x = a ++ b ∧ Matches r a ∧ Matches s b := by
  constructor
  · intro h
    cases h with
    | cat ha hb => exact ⟨_, _, rfl, ha, hb⟩
  · rintro ⟨a, b, rfl, ha, hb⟩
    exact .cat ha hb

theorem matches_star_cls_iff (k : CharClass) (x : List Char) :
    Matches (star (cls k)) x ↔ ∀ c ∈ x, k.mem c = true := by
  constructor
  · intro h
    generalize hr : star (cls k) = r at h
    induction h with
    | eps => cases hr
    | cls _ => cases hr
    | cat _ _ _ _ => cases hr
    | altL _ _ => cases hr
    | altR _ _ => cases hr
    | starNil => intro c hc; cases hc
    | starCons hx _ _ ihy =>
      cases hr
      cases hx with
      | cls hk =>
        intro c hc
        rcases List.mem_cons.1 hc with rfl | hc
        · exact hk
        · exact ihy rfl c hc
  · intro h
    induction x with
    | nil => exact .starNil
    | cons c x ih =>
      have hc : Matches (cls k) [c] := .cls (h c (List.mem_cons_self _ _))
      exact Matches.starCons hc (ih fun d hd => h d (List.mem_cons_of_mem _ hd))

theorem matches_plus_cls_iff (k : CharClass) (x : List Char) :
    Matches (plus (cls k)) x ↔ x ≠ [] ∧ ∀ c ∈ x, k.mem c = true := by
  rw [plus, matches_cat_iff]
  constructor
  · rintro ⟨a, b, rfl, ha, hb⟩
    obtain ⟨c, rfl, hk⟩ := (matches_cls_iff k a).1 ha
    refine ⟨by simp, fun d hd => ?_⟩
    rcases List.mem_cons.1 hd with rfl | hd
    · exact hk
    · exact (matches_star_cls_iff k b).1 hb d hd
  · rintro ⟨hne, h⟩
    cases x with
    | nil => exact absurd rfl hne
    | cons c x =>
      exact ⟨[c], x, rfl, .cls (h c (List.mem_cons_self _ _)),
        (matches_star_cls_iff k x).2 fun d hd => h d (List.mem_cons_of_mem _ hd)⟩

theorem matches_atLeast_two_cls_iff (k : CharClass) (x : List Char) :
    Matches (atLeast 2 (cls k)) x ↔ 2 ≤ x.length ∧ ∀ c ∈ x, k.mem c = true := by
  simp only [atLeast, matches_cat_iff, matches_cls_iff, matches_star_cls_iff]
  constructor
  · rintro ⟨a, b, rfl, ⟨c, rfl, hc⟩, a2, b2, rfl, ⟨d, rfl, hd⟩, hb⟩
    refine ⟨by simp, fun e he => ?_⟩
    simp only [List.singleton_append, List.mem_cons] at he
    rcases he with rfl | rfl | he
    · exact hc
    · exact hd
    · exact hb e he
  · rintro ⟨hlen, h⟩
    match x, hlen, h with
    | c :: d :: x, _, h =>
      exact ⟨[c], d :: x, rfl, ⟨c, rfl, h c (by simp)⟩, [d], x, rfl,
        ⟨d, rfl, h d (by simp)⟩, fun e he => h e (by simp [he])⟩

theorem matches_lit_iff (c : Char) (x : List Char) : Matches (lit c) x ↔ x = [c] := by
  rw [lit, matches_cls_iff]
  constructor
  · rintro ⟨d, rfl, hd⟩
    simp only [CharClass.mem, List.any_cons, List.any_nil, Bool.or_false, Bool.and_eq_true,
      decide_eq_true_eq] at hd
    rw [le_antisymm hd.2 hd.1]
  · rintro rfl
    exact ⟨c, rfl, by simp [CharClass.mem]⟩

end Regex


/-! ## Theorems: validation -/

theorem char_between_self_iff (a c : Char) : (a ≤ c ∧ c ≤ a) ↔ c = a :=
  ⟨fun h => le_antisymm h.2 h.1, fun h => h ▸ ⟨le_rfl, le_rfl⟩⟩

theorem age_message_ne_format_message (s : String) :
    "age must be positive, got: " ++ s ≠ "invalid email format: " := by
  intro h
  have h2 := congrArg String.data h
  rw [String.data_append] at h2
  have h3 : "age must be positive, got: ".data = 'a' :: "ge must be positive, got: ".data :=
    rfl
  have h4 : "invalid email format: ".data = 'i' :: "nvalid email format: ".data := rfl
  rw [h3, h4] at h2
  simp at h2

theorem letterClass_mem_iff (c : Char) : letterClass.mem c = true ↔ IsLetter c := by
  simp [letterClass, CharClass.mem, IsLetter]

theorem localClass_mem_iff (c : Char) : localClass.mem c = true ↔ IsLocalChar c := by
  simp [localClass, CharClass.mem, IsLocalChar, IsLetter, IsDigit, char_between_self_iff,
    or_assoc]

theorem domainClass_mem_iff (c : Char) : domainClass.mem c = true ↔ IsDomainChar c := by
  simp [domainClass, CharClass.mem, IsDomainChar, IsLetter, IsDigit, char_between_self_iff,
    or_assoc]

/-- The matcher run on `emailRegex` accepts exactly the texts the pattern describes. -/
theorem matchString_emailRegex_iff (s : String) :
    emailRegex.MatchString s = true ↔ MatchesEmailPattern s := by
  unfold Regex.MatchString MatchesEmailPattern emailRegex
  rw [Regex.matchList_iff]
  simp only [Regex.matches_cat_iff, Regex.matches_plus_cls_iff, Regex.matches_lit_iff,
    Regex.matches_atLeast_two_cls_iff, localClass_mem_iff, domainClass_mem_iff,
    letterClass_mem_iff]
  constructor
  · rintro ⟨loc, r1, h, ⟨hl, hlc⟩, at1, r2, rfl, rfl, dom, r3, rfl, ⟨hd, hdc⟩, dot, tld, rfl,
      rfl, ht, htc⟩
    exact ⟨loc, dom, tld, by simpa using h, hl, hlc, hd, hdc, ht, htc⟩
  · rintro ⟨loc, dom, tld, h, hl, hlc, hd, hdc, ht, htc⟩
    exact ⟨loc, _, h, ⟨hl, hlc⟩, ['@'], _, rfl, rfl, dom, _, rfl, ⟨hd, hdc⟩, ['.'], tld, rfl,
      rfl, ht, htc⟩

theorem not_matchesEmailPattern_empty : ¬ MatchesEmailPattern "" := by
  rintro ⟨loc, dom, tld, h, -⟩
  have h1 : ("" : String).data = [] := rfl
  rw [h1] at h
  simp at h

theorem validate_eq_none_iff (u : User) :
    u.Validate = none ↔
      u.Name ≠ "" ∧ 0 < u.Age ∧ u.PhoneNumber ≠ "" ∧ MatchesEmailPattern u.Email := by
  rw [← matchString_emailRegex_iff]
  have hempty : emailRegex.MatchString "" = false := by decide
  unfold User.Validate
  constructor
  · intro h
    split_ifs at h with h1 h2 h3 h4 h5
    refine ⟨h1, by omega, h3, ?_⟩
    simpa using h5
  · rintro ⟨h1, h2, h3, h4⟩
    have h5 : u.Email ≠ "" := by
      intro h
      rw [h, hempty] at h4
      cases h4
    simp [h1, h3, h4, h5, not_le.2 h2]

/-- Claim C1: `Validate` returns no error exactly when the name is non-empty, the age is
positive, the phone number is non-empty and the email has the shape of the pattern
`^[a-zA-Z0-9._%+-]+@[a-zA-Z0-9.-]+\.[a-zA-Z]{2,}$`, which is what
`MatchString` on `emailRegex` decides; the `ID` field plays no part; and the three users of
the test are accepted, rejected for the email and rejected for the age. -/
theorem validate_ok_iff_fields_wellformed :
    (∀ u : User, u.Validate = none ↔
      u.Name ≠ "" ∧ 0 < u.Age ∧ u.PhoneNumber ≠ "" ∧ MatchesEmailPattern u.Email) ∧
    (∀ s : String, emailRegex.MatchString s = true ↔ MatchesEmailPattern s) ∧
    (∀ (u : User) (i : Int), User.Validate { u with ID := i } = u.Validate) ∧
    User.Validate ⟨0, "John Doe", 30, "+1234567890", "john@example.com"⟩ = none ∧
    User.Validate ⟨0, "John Doe", 30, "+1234567890", "invalid-email"⟩ ≠ none ∧
    User.Validate ⟨0, "John Doe", -1, "+1234567890", "john@example.com"⟩ ≠ none :=
  ⟨validate_eq_none_iff, matchString_emailRegex_iff, fun _ _ => rfl, by decide, by decide,
    by decide⟩

/-- The text of the error `Validate` returns, if any. -/
theorem validate_message_cases (u : User) :
    (u.Name = "" → u.Validate.map GoError.Error = some "name is required") ∧
    (u.Name ≠ "" → u.Age ≤ 0 →
      u.Validate.map GoError.Error = some ("age must be positive, got: " ++ decimal u.Age)) ∧
    (u.Name ≠ "" → 0 < u.Age → u.PhoneNumber = "" →
      u.Validate.map GoError.Error = some "phone number is required") ∧
    (u.Name ≠ "" → 0 < u.Age → u.PhoneNumber ≠ "" → u.Email = "" →
      u.Validate.map GoError.Error = some "email is required") ∧
    (u.Name ≠ "" → 0 < u.Age → u.PhoneNumber ≠ "" → u.Email ≠ "" →
      ¬ MatchesEmailPattern u.Email →
      u.Validate.map GoError.Error = some ("invalid email format: " ++ u.Email)) := by
  refine ⟨?_, ?_, ?_, ?_, ?_⟩
  · intro h1
    simp [User.Validate, h1, GoError.Error]
  · intro h1 h2
    simp [User.Validate, h1, h2, GoError.Error]
  · intro h1 h2 h3
    simp [User.Validate, h1, not_le.2 h2, h3, GoError.Error]
  · intro h1 h2 h3 h4
    simp [User.Validate, h1, not_le.2 h2, h3, h4, GoError.Error]
  · intro h1 h2 h3 h4 h5
    rw [← matchString_emailRegex_iff] at h5
    simp [User.Validate, h1, not_le.2 h2, h3, h4, h5, GoError.Error]

/-- Claim C2: a user that fails validation gets the message of the first failing rule, in
the order name, age, phone number, email present, email format, with the texts of the
source; the age is printed in decimal with its sign; a user with an empty name and a
non-positive age gets "name is required", and an empty email gets "email is required",
never "invalid email format: ". -/
theorem validate_first_failure_message :
    (∀ u : User,
      (u.Name = "" → u.Validate.map GoError.Error = some "name is required") ∧
      (u.Name ≠ "" → u.Age ≤ 0 →
        u.Validate.map GoError.Error =
          some ("age must be positive, got: " ++ decimal u.Age)) ∧
      (u.Name ≠ "" → 0 < u.Age → u.PhoneNumber = "" →
        u.Validate.map GoError.Error = some "phone number is required") ∧
      (u.Name ≠ "" → 0 < u.Age → u.PhoneNumber ≠ "" → u.Email = "" →
        u.Validate.map GoError.Error = some "email is required") ∧
      (u.Name ≠ "" → 0 < u.Age → u.PhoneNumber ≠ "" → u.Email ≠ "" →
        ¬ MatchesEmailPattern u.Email →
        u.Validate.map GoError.Error = some ("invalid email format: " ++ u.Email))) ∧
    (∀ u : User, u.Email = "" →
      u.Validate.map GoError.Error ≠ some "invalid email format: ") ∧
    (User.Validate ⟨0, "John Doe", -1, "+1234567890", "john@example.com"⟩).map GoError.Error
      = some "age must be positive, got: -1" ∧
    (User.Validate ⟨0, "John Doe", 0, "+1234567890", "john@example.com"⟩).map GoError.Error
      = some "age must be positive, got: 0" ∧
    (User.Validate ⟨7, "", -25, "", ""⟩).map GoError.Error = some "name is required" ∧
    (User.Validate ⟨0, "John Doe", 30, "+1234567890", ""⟩).map GoError.Error
      = some "email is required" ∧
    (User.Validate ⟨0, "John Doe", 30, "+1234567890", "invalid-email"⟩).map GoError.Error
      = some "invalid email format: invalid-email" := by
  refine ⟨validate_message_cases, ?_, by decide, by decide, by decide, by decide, by decide⟩
  intro u h
  unfold User.Validate
  split_ifs <;> simp [GoError.Error, age_message_ne_format_message, h]

/-! ## Theorems: the handlers -/

/-- The header, status and body `respondWithError` leaves on a fresh writer. -/
theorem respondWithError_newRecorder (code : Nat) (message : String) :
    respondWithError NewRecorder code message =
      ⟨[("Content-Type", "application/json")], true, code,
        [.object [("error", .string message)]]⟩ := rfl

theorem encode_user_newRecorder (code : Nat) (u : User) :
    Encode ((NewRecorder.Set "Content-Type" "application/json").WriteHeader code) (.user u) =
      ⟨[("Content-Type", "application/json")], true, code, [u.toJSON]⟩ := rfl

theorem encode_user_newRecorder_implicit (u : User) :
    Encode (NewRecorder.Set "Content-Type" "application/json") (.user u) =
      ⟨[("Content-Type", "application/json")], true, 200, [u.toJSON]⟩ := rfl

theorem encode_users_newRecorder (us : Slice User) :
    Encode (NewRecorder.Set "Content-Type" "application/json") (.users us) =
      ⟨[("Content-Type", "application/json")], true, 200,
        [match us with
          | none => JSON.null
          | some xs => JSON.array (xs.map User.toJSON)]⟩ := by
  cases us <;> rfl

/-- The relational `Create` changes nothing but the `ID` behind the pointer. -/
theorem mysql_create_assigns_only_id {δ : Type} (db : DB δ) (u u1 : User) (t : δ)
    (e : Option GoError) (h : (mysqlUserRepository.Create db u t).1 = (u1, e)) :
    u1 = { u with ID := u1.ID } := by
  unfold mysqlUserRepository.Create at h
  rcases hx : db.ExecContext mysqlUserRepository.createQuery
    (mysqlUserRepository.createArgs u) t with ⟨_ | res, t1⟩
  · simp only [hx, Prod.mk.injEq] at h
    rw [← h.1]
  · simp only [hx] at h
    rcases hl : res.LastInsertId with _ | id
    · simp only [hl, Prod.mk.injEq] at h
      rw [← h.1]
    · simp only [hl, Prod.mk.injEq] at h
      rw [← h.1]

/-- The relational `Update` leaves the user behind the pointer as it was. -/
theorem mysql_update_keeps_user {δ : Type} (db : DB δ) (u : User) (t : δ) :
    (mysqlUserRepository.Update db u t).1.1 = u := by
  unfold mysqlUserRepository.Update
  rcases hx : db.ExecContext mysqlUserRepository.updateQuery
    (mysqlUserRepository.updateArgs u) t with ⟨_ | res, t1⟩
  · rfl
  · simp only []
    rcases hl : res.RowsAffected with _ | n
    · rfl
    · simp only []
      split_ifs <;> rfl

/-- Claim C3: the `Create` and `Update` handlers call the repository only with a user that
passes `Validate`.  When the body does not decode, the path id does not parse, or the
decoded user (for `Update`, with the path id written over its `ID`) fails `Validate`, no
call is made on the repository and the store is the one the handler started with; every
call that is made is the one `Create` (or `Update`) on a user for which `Validate` returns
no error. -/
theorem handlers_persist_only_validated_users {σ : Type} (repo : UserRepository σ)
    (w : ResponseWriter) (r : Request) (s : σ) :
    (∀ e, r.Body = .error e →
      (UserHandler.Create repo w r s).calls = [] ∧ (UserHandler.Create repo w r s).store = s) ∧
    (∀ u, r.Body = .ok u → u.Validate ≠ none →
      (UserHandler.Create repo w r s).calls = [] ∧ (UserHandler.Create repo w r s).store = s) ∧
    (∀ c ∈ (UserHandler.Create repo w r s).calls,
      ∃ u, c = .Create u ∧ r.Body = .ok u ∧ u.Validate = none) ∧
    (ParseInt (r.Var "id") = none →
      (UserHandler.Update repo w r s).calls = [] ∧ (UserHandler.Update repo w r s).store = s) ∧
    (∀ e, r.Body = .error e →
      (UserHandler.Update repo w r s).calls = [] ∧ (UserHandler.Update repo w r s).store = s) ∧
    (∀ u i, ParseInt (r.Var "id") = some i → r.Body = .ok u →
      User.Validate { u with ID := i } ≠ none →
      (UserHandler.Update repo w r s).calls = [] ∧ (UserHandler.Update repo w r s).store = s) ∧
    (∀ c ∈ (UserHandler.Update repo w r s).calls,
      ∃ u i, c = .Update { u with ID := i } ∧ ParseInt (r.Var "id") = some i ∧
        r.Body = .ok u ∧ User.Validate { u with ID := i } = none) := by
  refine ⟨?_, ?_, ?_, ?_, ?_, ?_, ?_⟩
  · intro e he
    simp [UserHandler.Create, he]
  · intro u hu hv
    rcases hval : u.Validate with _ | m
    · exact absurd hval hv
    · simp [UserHandler.Create, hu, hval]
  · intro c hc
    unfold UserHandler.Create at hc
    rcases hb : r.Body with e | u
    · simp [hb] at hc
    · rcases hval : u.Validate with _ | m
      · rcases hrepo : repo.Create u s with ⟨⟨u1, _ | e⟩, s1⟩ <;>
          simp [hb, hval, hrepo] at hc <;> exact ⟨u, hc, rfl, hval⟩
      · simp [hb, hval] at hc
  · intro hid
    simp [UserHandler.Update, hid]
  · intro e he
    rcases hid : ParseInt (r.Var "id") with _ | i <;> simp [UserHandler.Update, hid, he]
  · intro u i hid hu hv
    rcases hval : User.Validate { u with ID := i } with _ | m
    · exact absurd hval hv
    · simp [UserHandler.Update, hid, hu, hval]
  · intro c hc
    unfold UserHandler.Update at hc
    rcases hid : ParseInt (r.Var "id") with _ | i
    · simp [hid] at hc
    · rcases hb : r.Body with e | u
      · simp [hid, hb] at hc
      · rcases hval : User.Validate { u with ID := i } with _ | m
        · rcases hrepo : repo.Update { u with ID := i } s with ⟨⟨u1, _ | e⟩, s1⟩
          · simp [hid, hb, hval, hrepo] at hc
            exact ⟨u, i, hc, rfl, rfl, hval⟩
          · simp only [hid, hb, hval, hrepo] at hc
            split_ifs at hc <;> simp at hc <;> exact ⟨u, i, hc, rfl, rfl, hval⟩
        · simp [hid, hb, hval] at hc

/-- Two rejected requests on the connection of `main` with John Doe stored under id 1: a
`POST /users` with the email `invalid-email` and a `PUT /users/abc` with a valid body make
no call and leave the table as it was; the accepted `POST /users` makes the one call. -/
theorem handlers_persist_only_validated_users_examples :
    (UserHandler.Create (NewMySQLUserRepository mainDB) NewRecorder
      ⟨[], .ok ⟨0, "John Doe", 30, "+1234567890", "invalid-email"⟩⟩
      ⟨[⟨1, "John Doe", 30, "+1234567890", "john@example.com"⟩], 2⟩).calls = [] ∧
    (UserHandler.Create (NewMySQLUserRepository mainDB) NewRecorder
      ⟨[], .ok ⟨0, "John Doe", 30, "+1234567890", "invalid-email"⟩⟩
      ⟨[⟨1, "John Doe", 30, "+1234567890", "john@example.com"⟩], 2⟩).store =
      ⟨[⟨1, "John Doe", 30, "+1234567890", "john@example.com"⟩], 2⟩ ∧
    (UserHandler.Update (NewMySQLUserRepository mainDB) NewRecorder
      ⟨[("id", "abc")], .ok ⟨0, "Jane Doe", 31, "+1987654321", "jane@example.com"⟩⟩
      ⟨[⟨1, "John Doe", 30, "+1234567890", "john@example.com"⟩], 2⟩).calls = [] ∧
    (UserHandler.Update (NewMySQLUserRepository mainDB) NewRecorder
      ⟨[("id", "abc")], .ok ⟨0, "Jane Doe", 31, "+1987654321", "jane@example.com"⟩⟩
      ⟨[⟨1, "John Doe", 30, "+1234567890", "john@example.com"⟩], 2⟩).store =
      ⟨[⟨1, "John Doe", 30, "+1234567890", "john@example.com"⟩], 2⟩ ∧
    (UserHandler.Create (NewMySQLUserRepository mainDB) NewRecorder
      ⟨[], .ok ⟨0, "Jane Doe", 31, "+1987654321", "jane@example.com"⟩⟩
      ⟨[⟨1, "John Doe", 30, "+1234567890", "john@example.com"⟩], 2⟩).calls =
      [.Create ⟨0, "Jane Doe", 31, "+1987654321", "jane@example.com"⟩] ∧
    (UserHandler.Create (NewMySQLUserRepository mainDB) NewRecorder
      ⟨[], .ok ⟨0, "Jane Doe", 31, "+1987654321", "jane@example.com"⟩⟩
      ⟨[⟨1, "John Doe", 30, "+1234567890", "john@example.com"⟩], 2⟩).store =
      ⟨[⟨1, "John Doe", 30, "+1234567890", "john@example.com"⟩,
        ⟨2, "Jane Doe", 31, "+1987654321", "jane@example.com"⟩], 3⟩ :=
  ⟨((handlers_persist_only_validated_users (NewMySQLUserRepository mainDB) NewRecorder
      ⟨[], .ok ⟨0, "John Doe", 30, "+1234567890", "invalid-email"⟩⟩
      ⟨[⟨1, "John Doe", 30, "+1234567890", "john@example.com"⟩], 2⟩).2.1 _ rfl
      (by decide)).1,
    rfl, rfl, rfl, rfl, rfl⟩

/-- Claim C4: the response of the `Create` handler on a fresh writer.  A body that does not
decode gives 400; a decoded user that fails `Validate` gives 400 with the body
`{"error": m}`, `m` the text of the `Validate` error; an error from the repository gives
500; otherwise the status is 201 and the body is the user as the repository left it, so
with a repository that assigns the id and touches nothing else (as the relational one
does) the body carries that id and the name, age, phone number and email of the request. -/
theorem create_response_by_case {σ : Type} (repo : UserRepository σ) (r : Request) (s : σ) :
    (∀ e, r.Body = .error e →
      (UserHandler.Create repo NewRecorder r s).w.Code = 400) ∧
    (∀ u m, r.Body = .ok u → u.Validate = some m →
      (UserHandler.Create repo NewRecorder r s).w.Code = 400 ∧
      (UserHandler.Create repo NewRecorder r s).w.Body =
        [.object [("error", .string m.Error)]]) ∧
    (∀ u e, r.Body = .ok u → u.Validate = none → (repo.Create u s).1.2 = some e →
      (UserHandler.Create repo NewRecorder r s).w.Code = 500) ∧
    (∀ u u1, r.Body = .ok u → u.Validate = none → (repo.Create u s).1 = (u1, none) →
      (UserHandler.Create repo NewRecorder r s).w.Code = 201 ∧
      (UserHandler.Create repo NewRecorder r s).w.Body = [u1.toJSON]) ∧
    (∀ u id, r.Body = .ok u → u.Validate = none →
      (repo.Create u s).1 = ({ u with ID := id }, none) →
      (UserHandler.Create repo NewRecorder r s).w.Code = 201 ∧
      (UserHandler.Create repo NewRecorder r s).w.Body =
        [.object [("id", .number id), ("name", .string u.Name), ("age", .number u.Age),
          ("phone_number", .string u.PhoneNumber), ("email", .string u.Email)]]) ∧
    (∀ (δ : Type) (db : DB δ) (u u1 : User) (t : δ),
      (mysqlUserRepository.Create db u t).1 = (u1, none) → u1 = { u with ID := u1.ID }) := by
  have hok : ∀ u u1, r.Body = .ok u → u.Validate = none → (repo.Create u s).1 = (u1, none) →
      (UserHandler.Create repo NewRecorder r s).w.Code = 201 ∧
      (UserHandler.Create repo NewRecorder r s).w.Body = [u1.toJSON] := by
    intro u u1 hu hv hrepo
    rcases hc : repo.Create u s with ⟨⟨u2, e2⟩, s1⟩
    rw [hc] at hrepo
    simp only [Prod.mk.injEq] at hrepo
    obtain ⟨rfl, rfl⟩ := hrepo
    simp [UserHandler.Create, hu, hv, hc, encode_user_newRecorder, StatusCreated]
  refine ⟨?_, ?_, ?_, hok, ?_, ?_⟩
  · intro e he
    simp [UserHandler.Create, he, respondWithError_newRecorder, StatusBadRequest]
  · intro u m hu hv
    simp [UserHandler.Create, hu, hv, respondWithError_newRecorder, StatusBadRequest]
  · intro u e hu hv hrepo
    rcases hc : repo.Create u s with ⟨⟨u2, e2⟩, s1⟩
    rw [hc] at hrepo
    simp only at hrepo
    subst hrepo
    simp [UserHandler.Create, hu, hv, hc, respondWithError_newRecorder,
      StatusInternalServerError]
  · intro u id hu hv hrepo
    exact hok u _ hu hv hrepo
  · intro δ db u u1 t h
    exact mysql_create_assigns_only_id db u u1 t none h

/-- The two requests of `TestUserHandler_Create`, run against the relational repository on
an empty table whose next id is 1: John Doe is created with id 1 and answered 201 with his
four fields; the same user with the email `invalid-email` is answered 400 with the text of
the validation error, and the table stays empty. -/
theorem create_response_examples :
    (UserHandler.Create (NewMySQLUserRepository mainDB) NewRecorder
      ⟨[], .ok ⟨0, "John Doe", 30, "+1234567890", "john@example.com"⟩⟩ ⟨[], 1⟩).w =
      ⟨[("Content-Type", "application/json")], true, 201,
        [.object [("id", .number 1), ("name", .string "John Doe"), ("age", .number 30),
          ("phone_number", .string "+1234567890"), ("email", .string "john@example.com")]]⟩ ∧
    (UserHandler.Create (NewMySQLUserRepository mainDB) NewRecorder
      ⟨[], .ok ⟨0, "John Doe", 30, "+1234567890", "invalid-email"⟩⟩ ⟨[], 1⟩).w =
      ⟨[("Content-Type", "application/json")], true, 400,
        [.object [("error", .string "invalid email format: invalid-email")]]⟩ ∧
    (UserHandler.Create (NewMySQLUserRepository mainDB) NewRecorder
      ⟨[], .ok ⟨0, "John Doe", 30, "+1234567890", "invalid-email"⟩⟩ ⟨[], 1⟩).store = ⟨[], 1⟩ ∧
    (UserHandler.Create (NewMySQLUserRepository mainDB) NewRecorder
      ⟨[], .error (.New "unexpected end of JSON input")⟩ ⟨[], 1⟩).w.Code = 400 :=
  ⟨rfl, rfl, rfl,
    (create_response_by_case (NewMySQLUserRepository mainDB)
      ⟨[], .error (.New "unexpected end of JSON input")⟩ ⟨[], 1⟩).1 _ rfl⟩

/-- Claim C5: the response of the `GetByID` handler on a fresh writer.  A path id that
`strconv.ParseInt(_, 10, 64)` rejects gives 400 with `{"error":"Invalid user ID"}`;
otherwise an error from the repository gives 500; otherwise the nil user gives 404 with
`{"error":"User not found"}`; otherwise the status is 200 and the body is that user. -/
theorem getByID_response_by_case {σ : Type} (repo : UserRepository σ) (r : Request)
    (s : σ) :
    (ParseInt (r.Var "id") = none →
      (UserHandler.GetByID repo NewRecorder r s).w.Code = 400 ∧
      (UserHandler.GetByID repo NewRecorder r s).w.Body =
        [.object [("error", .string "Invalid user ID")]]) ∧
    (∀ i u e, ParseInt (r.Var "id") = some i → (repo.GetByID i s).1 = (u, some e) →
      (UserHandler.GetByID repo NewRecorder r s).w.Code = 500) ∧
    (∀ i, ParseInt (r.Var "id") = some i → (repo.GetByID i s).1 = (none, none) →
      (UserHandler.GetByID repo NewRecorder r s).w.Code = 404 ∧
      (UserHandler.GetByID repo NewRecorder r s).w.Body =
        [.object [("error", .string "User not found")]]) ∧
    (∀ i u, ParseInt (r.Var "id") = some i → (repo.GetByID i s).1 = (some u, none) →
      (UserHandler.GetByID repo NewRecorder r s).w.Code = 200 ∧
      (UserHandler.GetByID repo NewRecorder r s).w.Body = [u.toJSON]) := by
  refine ⟨?_, ?_, ?_, ?_⟩
  · intro hid
    simp [UserHandler.GetByID, hid, respondWithError_newRecorder, StatusBadRequest]
  · intro i u e hid hrepo
    rcases hc : repo.GetByID i s with ⟨⟨u2, e2⟩, s1⟩
    rw [hc] at hrepo
    simp only [Prod.mk.injEq] at hrepo
    obtain ⟨rfl, rfl⟩ := hrepo
    simp [UserHandler.GetByID, hid, hc, respondWithError_newRecorder,
      StatusInternalServerError]
  · intro i hid hrepo
    rcases hc : repo.GetByID i s with ⟨⟨u2, e2⟩, s1⟩
    rw [hc] at hrepo
    simp only [Prod.mk.injEq] at hrepo
    obtain ⟨rfl, rfl⟩ := hrepo
    simp [UserHandler.GetByID, hid, hc, respondWithError_newRecorder, StatusNotFound]
  · intro i u hid hrepo
    rcases hc : repo.GetByID i s with ⟨⟨u2, e2⟩, s1⟩
    rw [hc] at hrepo
    simp only [Prod.mk.injEq] at hrepo
    obtain ⟨rfl, rfl⟩ := hrepo
    simp [UserHandler.GetByID, hid, hc, encode_user_newRecorder_implicit]

/-- The three requests of `TestUserHandler_GetByID`, with John Doe stored under id 1 by the
`Create` of the in-memory repository: the path id `1` is answered 200 with the user, `999`
is answered 404 and `invalid` is answered 400; a request that carries no route variable
(one handed to the handler without the router) is answered 400.  Further path ids show what `ParseInt`
takes: a sign is accepted, and the empty text, a text with a blank or a dot, and a number
outside the signed 64-bit range are rejected. -/
theorem getByID_response_examples :
    (UserHandler.GetByID newMockUserRepository NewRecorder
      ⟨[("id", "1")], .error (.New "EOF")⟩
      (mockUserRepository.Create
        ⟨0, "John Doe", 30, "+1234567890", "john@example.com"⟩ []).2).w =
      ⟨[("Content-Type", "application/json")], true, 200,
        [.object [("id", .number 1), ("name", .string "John Doe"), ("age", .number 30),
          ("phone_number", .string "+1234567890"), ("email", .string "john@example.com")]]⟩ ∧
    (UserHandler.GetByID newMockUserRepository NewRecorder
      ⟨[("id", "999")], .error (.New "EOF")⟩
      (mockUserRepository.Create
        ⟨0, "John Doe", 30, "+1234567890", "john@example.com"⟩ []).2).w =
      ⟨[("Content-Type", "application/json")], true, 404,
        [.object [("error", .string "User not found")]]⟩ ∧
    (UserHandler.GetByID newMockUserRepository NewRecorder
      ⟨[("id", "invalid")], .error (.New "EOF")⟩
      (mockUserRepository.Create
        ⟨0, "John Doe", 30, "+1234567890", "john@example.com"⟩ []).2).w.Code = 400 ∧
    (UserHandler.GetByID newMockUserRepository NewRecorder ⟨[], .error (.New "EOF")⟩
      (mockUserRepository.Create
        ⟨0, "John Doe", 30, "+1234567890", "john@example.com"⟩ []).2).w.Code = 400 ∧
    ParseInt "1" = some 1 ∧ ParseInt "999" = some 999 ∧ ParseInt "invalid" = none ∧
    ParseInt "" = none ∧ ParseInt "-" = none ∧ ParseInt "+7" = some 7 ∧
    ParseInt "-12" = some (-12) ∧ ParseInt " 1" = none ∧ ParseInt "1.5" = none ∧
    ParseInt "9223372036854775807" = some 9223372036854775807 ∧
    ParseInt "9223372036854775808" = none ∧
    ParseInt "-9223372036854775808" = some (-9223372036854775808) ∧
    ParseInt "-9223372036854775809" = none :=
  ⟨rfl, rfl,
    ((getByID_response_by_case newMockUserRepository
      ⟨[("id", "invalid")], .error (.New "EOF")⟩ _).1 (by decide)).1,
    rfl, by decide, by decide, by decide, by decide, by decide, by decide, by decide, by decide,
    by decide, by decide, by decide, by decide, by decide⟩

/-- Claim C6: an `UPDATE` or `DELETE` that affects zero rows makes the relational
repository return the error "user not found with ID: <id>" (not `nil`), and the `Update`
and `Delete` handlers, given an error with exactly that text for the path id, respond 404
with `{"error":"User not found"}`; put together, the handlers over the relational
repository respond 404 whenever the statement affects zero rows, for `Update` whatever
`ID` the decoded body carried. -/
theorem zero_rows_affected_is_not_found :
    (∀ (δ : Type) (db : DB δ) (u : User) (t t1 : δ) (res : Result),
      db.ExecContext mysqlUserRepository.updateQuery (mysqlUserRepository.updateArgs u) t
        = (.ok res, t1) → res.RowsAffected = .ok 0 →
      (mysqlUserRepository.Update db u t).1.2 =
        some (.New ("user not found with ID: " ++ decimal u.ID))) ∧
    (∀ (δ : Type) (db : DB δ) (id : Int) (t t1 : δ) (res : Result),
      db.ExecContext mysqlUserRepository.deleteQuery [.int id] t = (.ok res, t1) →
      res.RowsAffected = .ok 0 →
      (mysqlUserRepository.Delete db id t).1 =
        some (.New ("user not found with ID: " ++ decimal id))) ∧
    (∀ (σ : Type) (repo : UserRepository σ) (r : Request) (s : σ) (i : Int) (u : User)
      (e : GoError), ParseInt (r.Var "id") = some i → r.Body = .ok u → u.Validate = none →
      (repo.Update { u with ID := i } s).1.2 = some e →
      e.Error = "user not found with ID: " ++ decimal i →
      (UserHandler.Update repo NewRecorder r s).w.Code = 404 ∧
      (UserHandler.Update repo NewRecorder r s).w.Body =
        [.object [("error", .string "User not found")]]) ∧
    (∀ (σ : Type) (repo : UserRepository σ) (r : Request) (s : σ) (i : Int) (e : GoError),
      ParseInt (r.Var "id") = some i → (repo.Delete i s).1 = some e →
      e.Error = "user not found with ID: " ++ decimal i →
      (UserHandler.Delete repo NewRecorder r s).w.Code = 404 ∧
      (UserHandler.Delete repo NewRecorder r s).w.Body =
        [.object [("error", .string "User not found")]]) ∧
    (∀ (δ : Type) (db : DB δ) (r : Request) (t t1 : δ) (res : Result) (i : Int) (u : User),
      ParseInt (r.Var "id") = some i → r.Body = .ok u → u.Validate = none →
      db.ExecContext mysqlUserRepository.updateQuery
        (mysqlUserRepository.updateArgs { u with ID := i }) t = (.ok res, t1) →
      res.RowsAffected = .ok 0 →
      (UserHandler.Update (NewMySQLUserRepository db) NewRecorder r t).w.Code = 404 ∧
      (UserHandler.Update (NewMySQLUserRepository db) NewRecorder r t).w.Body =
        [.object [("error", .string "User not found")]]) ∧
    (∀ (δ : Type) (db : DB δ) (r : Request) (t t1 : δ) (res : Result) (i : Int),
      ParseInt (r.Var "id") = some i →
      db.ExecContext mysqlUserRepository.deleteQuery [.int i] t = (.ok res, t1) →
      res.RowsAffected = .ok 0 →
      (UserHandler.Delete (NewMySQLUserRepository db) NewRecorder r t).w.Code = 404 ∧
      (UserHandler.Delete (NewMySQLUserRepository db) NewRecorder r t).w.Body =
        [.object [("error", .string "User not found")]]) := by
  have hU : ∀ (δ : Type) (db : DB δ) (u : User) (t t1 : δ) (res : Result),
      db.ExecContext mysqlUserRepository.updateQuery (mysqlUserRepository.updateArgs u) t
        = (.ok res, t1) → res.RowsAffected = .ok 0 →
      mysqlUserRepository.Update db u t =
        ((u, some (.New ("user not found with ID: " ++ decimal u.ID))), t1) := by
    intro δ db u t t1 res hx hr
    simp [mysqlUserRepository.Update, hx, hr]
  have hD : ∀ (δ : Type) (db : DB δ) (id : Int) (t t1 : δ) (res : Result),
      db.ExecContext mysqlUserRepository.deleteQuery [.int id] t = (.ok res, t1) →
      res.RowsAffected = .ok 0 →
      mysqlUserRepository.Delete db id t =
        (some (.New ("user not found with ID: " ++ decimal id)), t1) := by
    intro δ db id t t1 res hx hr
    simp [mysqlUserRepository.Delete, hx, hr]
  have hHU : ∀ (σ : Type) (repo : UserRepository σ) (r : Request) (s : σ) (i : Int)
      (u : User) (e : GoError), ParseInt (r.Var "id") = some i → r.Body = .ok u →
      u.Validate = none → (repo.Update { u with ID := i } s).1.2 = some e →
      e.Error = "user not found with ID: " ++ decimal i →
      (UserHandler.Update repo NewRecorder r s).w.Code = 404 ∧
      (UserHandler.Update repo NewRecorder r s).w.Body =
        [.object [("error", .string "User not found")]] := by
    intro σ repo r s i u e hid hb hv hrepo he
    have hv2 : User.Validate { u with ID := i } = none := hv
    rcases hc : repo.Update { u with ID := i } s with ⟨⟨u2, e2⟩, s1⟩
    rw [hc] at hrepo
    simp only at hrepo
    subst hrepo
    simp [UserHandler.Update, hid, hb, hv2, hc, he, respondWithError_newRecorder,
      StatusNotFound]
  have hHD : ∀ (σ : Type) (repo : UserRepository σ) (r : Request) (s : σ) (i : Int)
      (e : GoError), ParseInt (r.Var "id") = some i → (repo.Delete i s).1 = some e →
      e.Error = "user not found with ID: " ++ decimal i →
      (UserHandler.Delete repo NewRecorder r s).w.Code = 404 ∧
      (UserHandler.Delete repo NewRecorder r s).w.Body =
        [.object [("error", .string "User not found")]] := by
    intro σ repo r s i e hid hrepo he
    rcases hc : repo.Delete i s with ⟨e2, s1⟩
    rw [hc] at hrepo
    simp only at hrepo
    subst hrepo
    simp [UserHandler.Delete, hid, hc, he, respondWithError_newRecorder, StatusNotFound]
  refine ⟨?_, ?_, hHU, hHD, ?_, ?_⟩
  · intro δ db u t t1 res hx hr
    rw [hU δ db u t t1 res hx hr]
  · intro δ db id t t1 res hx hr
    rw [hD δ db id t t1 res hx hr]
  · intro δ db r t t1 res i u hid hb hv hx hr
    refine hHU δ (NewMySQLUserRepository db) r t i u
      (.New ("user not found with ID: " ++ decimal i)) hid hb hv ?_ rfl
    show (mysqlUserRepository.Update db { u with ID := i } t).1.2 = _
    rw [hU δ db _ t t1 res hx hr]
  · intro δ db r t t1 res i hid hx hr
    refine hHD δ (NewMySQLUserRepository db) r t i
      (.New ("user not found with ID: " ++ decimal i)) hid ?_ rfl
    show (mysqlUserRepository.Delete db i t).1 = _
    rw [hD δ db i t t1 res hx hr]

/-- On the connection of `main` with no row under id 5: `PUT /users/5` with a valid body
that carries the id 99 is answered 404 with "User not found", and so is
`DELETE /users/5`; the repository itself returns "user not found with ID: 5". -/
theorem zero_rows_affected_examples :
    (mysqlUserRepository.Update mainDB
      ⟨5, "John Doe", 30, "+1234567890", "john@example.com"⟩ ⟨[], 1⟩).1.2 =
      some (.New "user not found with ID: 5") ∧
    (UserHandler.Update (NewMySQLUserRepository mainDB) NewRecorder
      ⟨[("id", "5")], .ok ⟨99, "John Doe", 30, "+1234567890", "john@example.com"⟩⟩
      ⟨[], 1⟩).w =
      ⟨[("Content-Type", "application/json")], true, 404,
        [.object [("error", .string "User not found")]]⟩ ∧
    (UserHandler.Delete (NewMySQLUserRepository mainDB) NewRecorder
      ⟨[("id", "5")], .error (.New "EOF")⟩ ⟨[], 1⟩).w =
      ⟨[("Content-Type", "application/json")], true, 404,
        [.object [("error", .string "User not found")]]⟩ :=
  ⟨(zero_rows_affected_is_not_found.1 Table mainDB
      ⟨5, "John Doe", 30, "+1234567890", "john@example.com"⟩ ⟨[], 1⟩ ⟨[], 1⟩
      ⟨.ok 0, .ok 0⟩ rfl rfl), rfl, rfl⟩

/-- Claim C7: an `Update` request whose path id parses to `i` and whose body decodes to a
valid user makes exactly one call on the repository, `Update` on the user with `ID = i`
and the name, age, phone number and email of the body, whatever `ID` the body carried; when
that call succeeds the status is 200 and the body is the user as the repository left it,
so with `ID = i` for a repository that leaves the user alone, as the relational one does. -/
theorem update_forces_path_id {σ : Type} (repo : UserRepository σ) (r : Request) (s : σ)
    (i : Int) (u : User) (hid : ParseInt (r.Var "id") = some i) (hbody : r.Body = .ok u)
    (hvalid : u.Validate = none) :
    (UserHandler.Update repo NewRecorder r s).calls =
      [.Update ⟨i, u.Name, u.Age, u.PhoneNumber, u.Email⟩] ∧
    (∀ u1, (repo.Update ⟨i, u.Name, u.Age, u.PhoneNumber, u.Email⟩ s).1 = (u1, none) →
      (UserHandler.Update repo NewRecorder r s).w.Code = 200 ∧
      (UserHandler.Update repo NewRecorder r s).w.Body = [u1.toJSON]) ∧
    ((repo.Update ⟨i, u.Name, u.Age, u.PhoneNumber, u.Email⟩ s).1 =
        (⟨i, u.Name, u.Age, u.PhoneNumber, u.Email⟩, none) →
      (UserHandler.Update repo NewRecorder r s).w.Code = 200 ∧
      (UserHandler.Update repo NewRecorder r s).w.Body =
        [.object [("id", .number i), ("name", .string u.Name), ("age", .number u.Age),
          ("phone_number", .string u.PhoneNumber), ("email", .string u.Email)]]) ∧
    (∀ (δ : Type) (db : DB δ) (v : User) (t : δ),
      (mysqlUserRepository.Update db v t).1.1 = v) := by
  have hv2 : User.Validate { u with ID := i } = none := hvalid
  have hok : ∀ u1, (repo.Update ⟨i, u.Name, u.Age, u.PhoneNumber, u.Email⟩ s).1 = (u1, none) →
      (UserHandler.Update repo NewRecorder r s).w.Code = 200 ∧
      (UserHandler.Update repo NewRecorder r s).w.Body = [u1.toJSON] := by
    intro u1 hrepo
    rcases hc : repo.Update ⟨i, u.Name, u.Age, u.PhoneNumber, u.Email⟩ s with ⟨⟨u2, e2⟩, s1⟩
    rw [hc] at hrepo
    simp only [Prod.mk.injEq] at hrepo
    obtain ⟨rfl, rfl⟩ := hrepo
    simp [UserHandler.Update, hid, hbody, hv2, hc, encode_user_newRecorder_implicit]
  refine ⟨?_, hok, fun h => hok _ h, fun δ db v t => mysql_update_keeps_user db v t⟩
  rcases hc : repo.Update ⟨i, u.Name, u.Age, u.PhoneNumber, u.Email⟩ s with ⟨⟨u2, _ | e2⟩, s1⟩
  · simp [UserHandler.Update, hid, hbody, hv2, hc]
  · simp only [UserHandler.Update, hid, hbody, hv2, hc]
    split_ifs <;> rfl

/-- The request `PUT /users/7` with a valid body that carries the id 99, on the connection
of `main` with John Doe stored under id 7: the repository is called with id 7 and the
body's other fields, and the answer is 200 with a user whose id is 7. -/
theorem update_forces_path_id_example :
    ParseInt "7" = some 7 ∧
    User.Validate ⟨99, "Jane Doe", 31, "+1987654321", "jane@example.com"⟩ = none ∧
    (UserHandler.Update (NewMySQLUserRepository mainDB) NewRecorder
      ⟨[("id", "7")], .ok ⟨99, "Jane Doe", 31, "+1987654321", "jane@example.com"⟩⟩
      ⟨[⟨7, "John Doe", 30, "+1234567890", "john@example.com"⟩], 8⟩).calls =
      [.Update ⟨7, "Jane Doe", 31, "+1987654321", "jane@example.com"⟩] ∧
    (UserHandler.Update (NewMySQLUserRepository mainDB) NewRecorder
      ⟨[("id", "7")], .ok ⟨99, "Jane Doe", 31, "+1987654321", "jane@example.com"⟩⟩
      ⟨[⟨7, "John Doe", 30, "+1234567890", "john@example.com"⟩], 8⟩).w =
      ⟨[("Content-Type", "application/json")], true, 200,
        [.object [("id", .number 7), ("name", .string "Jane Doe"), ("age", .number 31),
          ("phone_number", .string "+1987654321"), ("email", .string "jane@example.com")]]⟩ ∧
    (UserHandler.Update (NewMySQLUserRepository mainDB) NewRecorder
      ⟨[("id", "7")], .ok ⟨99, "Jane Doe", 31, "+1987654321", "jane@example.com"⟩⟩
      ⟨[⟨7, "John Doe", 30, "+1234567890", "john@example.com"⟩], 8⟩).store =
      ⟨[⟨7, "Jane Doe", 31, "+1987654321", "jane@example.com"⟩], 8⟩ :=
  ⟨by decide, by decide,
    (update_forces_path_id (NewMySQLUserRepository mainDB)
      ⟨[("id", "7")], .ok ⟨99, "Jane Doe", 31, "+1987654321", "jane@example.com"⟩⟩
      ⟨[⟨7, "John Doe", 30, "+1234567890", "john@example.com"⟩], 8⟩ 7
      ⟨99, "Jane Doe", 31, "+1987654321", "jane@example.com"⟩ (by decide) rfl
      (by decide)).1, rfl, rfl⟩

/-! ## Theorems: the relational repository on the connection of `main` -/

theorem clientFoundRows_dsnParams : clientFoundRows dsnParams = false := by decide

/-- What the server does with the `UPDATE` of the repository. -/
theorem mysqlServer_exec_update (foundRows : Bool) (u : User) (t : Table) :
    mysqlServer.ExecContext foundRows mysqlUserRepository.updateQuery
        (mysqlUserRepository.updateArgs u) t =
      (.ok ⟨.ok 0, .ok (if foundRows then ((t.rows.filter fun r => r.ID = u.ID).length : Int)
          else ((t.rows.filter fun r => r.ID = u.ID ∧ r ≠ u).length : Int))⟩,
        ⟨t.rows.map fun r => if r.ID = u.ID then u else r, t.nextID⟩) := by
  have h1 : mysqlUserRepository.updateQuery ≠ mysqlUserRepository.createQuery := by decide
  unfold mysqlServer.ExecContext
  rw [if_neg h1, if_pos rfl]
  rfl

theorem update_rows_no_change_left (u : User) (rows : List User) :
    ((rows.map fun r => if r.ID = u.ID then u else r).filter
      fun r => r.ID = u.ID ∧ r ≠ u) = [] := by
  rw [List.filter_eq_nil_iff]
  intro a ha
  obtain ⟨r, -, rfl⟩ := List.mem_map.1 ha
  by_cases hr : r.ID = u.ID <;> simp [hr]

theorem update_rows_idempotent (u : User) (rows : List User) :
    ((rows.map fun r => if r.ID = u.ID then u else r).map
      fun r => if r.ID = u.ID then u else r) =
      rows.map fun r => if r.ID = u.ID then u else r := by
  rw [List.map_map]
  apply List.map_congr_left
  intro r _
  by_cases hr : r.ID = u.ID <;> simp [hr]

theorem update_rows_found_length (u : User) (rows : List User) :
    ((rows.map fun r => if r.ID = u.ID then u else r).filter fun r => r.ID = u.ID).length =
      (rows.filter fun r => r.ID = u.ID).length := by
  induction rows with
  | nil => rfl
  | cons r rows ih =>
    by_cases hr : r.ID = u.ID <;> simp [hr, List.filter_cons] at ih ⊢ <;> exact ih

theorem found_length_ne_zero (u : User) (rows : List User)
    (h : ∃ row ∈ rows, row.ID = u.ID) :
    ((rows.filter fun r => r.ID = u.ID).length : Int) ≠ 0 := by
  obtain ⟨row, hmem, hrow⟩ := h
  have hm : row ∈ rows.filter fun r => r.ID = u.ID := by
    simp [List.mem_filter, hmem, hrow]
  have hpos := List.length_pos_of_mem hm
  omega

/-- The relational `Update` on a connection of the server. -/
theorem mysql_update_on_server (foundRows : Bool) (u : User) (t : Table) :
    mysqlUserRepository.Update (mysqlServer foundRows) u t =
      ((u, if (if foundRows then ((t.rows.filter fun r => r.ID = u.ID).length : Int)
              else ((t.rows.filter fun r => r.ID = u.ID ∧ r ≠ u).length : Int)) = 0
            then some (.New ("user not found with ID: " ++ decimal u.ID)) else none),
        ⟨t.rows.map fun r => if r.ID = u.ID then u else r, t.nextID⟩) := by
  have hx := mysqlServer_exec_update foundRows u t
  have hdb : (mysqlServer foundRows).ExecContext = mysqlServer.ExecContext foundRows := rfl
  unfold mysqlUserRepository.Update
  rw [hdb, hx]
  simp only []
  split_ifs <;> rfl

/-- Claim C9, as the code behaves: on the connection `main` opens, a second `Update` with
the fields of the first changes no row, so the server reports zero affected rows and the
repository returns "user not found with ID: <id>" although the row exists; the store is
the same after both calls.  With `clientFoundRows` switched on both calls would succeed. -/
theorem second_identical_update_reports_not_found (t : Table) (u : User)
    (hexists : ∃ row ∈ t.rows, row.ID = u.ID) :
    (mysqlUserRepository.Update mainDB u (mysqlUserRepository.Update mainDB u t).2).1.2 =
      some (.New ("user not found with ID: " ++ decimal u.ID)) ∧
    (mysqlUserRepository.Update mainDB u (mysqlUserRepository.Update mainDB u t).2).2 =
      (mysqlUserRepository.Update mainDB u t).2 ∧
    (∃ row ∈ (mysqlUserRepository.Update mainDB u t).2.rows, row.ID = u.ID) ∧
    (mysqlUserRepository.Update (mysqlServer true) u t).1.2 = none ∧
    (mysqlUserRepository.Update (mysqlServer true) u
      (mysqlUserRepository.Update (mysqlServer true) u t).2).1.2 = none ∧
    (mysqlUserRepository.Update (mysqlServer true) u
      (mysqlUserRepository.Update (mysqlServer true) u t).2).2 =
      (mysqlUserRepository.Update (mysqlServer true) u t).2 := by
  have hmain : mainDB = mysqlServer false := by
    unfold mainDB
    rw [clientFoundRows_dsnParams]
  rw [hmain]
  simp only [mysql_update_on_server, update_rows_no_change_left, update_rows_idempotent,
    update_rows_found_length]
  refine ⟨by simp, trivial, ?_, ?_, ?_, trivial⟩
  · obtain ⟨row, hmem, hrow⟩ := hexists
    exact ⟨u, List.mem_map.2 ⟨row, hmem, by simp [hrow]⟩, rfl⟩
  · simp [found_length_ne_zero u t.rows hexists]
  · simp [found_length_ne_zero u t.rows hexists]

/-- With John Doe stored under id 1 on the connection of `main`: the first `Update` to
Jane Doe succeeds, the second identical `Update` returns "user not found with ID: 1", and
the second identical `PUT /users/1` is answered 404 although the row is there. -/
theorem second_identical_update_example :
    (∃ row ∈ [(⟨1, "John Doe", 30, "+1234567890", "john@example.com"⟩ : User)],
      row.ID = (⟨1, "Jane Doe", 31, "+1987654321", "jane@example.com"⟩ : User).ID) ∧
    (mysqlUserRepository.Update mainDB ⟨1, "Jane Doe", 31, "+1987654321", "jane@example.com"⟩
      ⟨[⟨1, "John Doe", 30, "+1234567890", "john@example.com"⟩], 2⟩).1.2 = none ∧
    (mysqlUserRepository.Update mainDB ⟨1, "Jane Doe", 31, "+1987654321", "jane@example.com"⟩
      (mysqlUserRepository.Update mainDB
        ⟨1, "Jane Doe", 31, "+1987654321", "jane@example.com"⟩
        ⟨[⟨1, "John Doe", 30, "+1234567890", "john@example.com"⟩], 2⟩).2).1.2 =
      some (.New ("user not found with ID: " ++ decimal 1)) ∧
    (UserHandler.Update (NewMySQLUserRepository mainDB) NewRecorder
      ⟨[("id", "1")], .ok ⟨0, "Jane Doe", 31, "+1987654321", "jane@example.com"⟩⟩
      ⟨[⟨1, "Jane Doe", 31, "+1987654321", "jane@example.com"⟩], 2⟩).w =
      ⟨[("Content-Type", "application/json")], true, 404,
        [.object [("error", .string "User not found")]]⟩ :=
  ⟨⟨_, List.mem_singleton.2 rfl, rfl⟩, rfl,
    (second_identical_update_reports_not_found
      ⟨[⟨1, "John Doe", 30, "+1234567890", "john@example.com"⟩], 2⟩
      ⟨1, "Jane Doe", 31, "+1987654321", "jane@example.com"⟩
      ⟨_, List.mem_singleton.2 rfl, rfl⟩).1, rfl⟩

/-- Claim C8, as the code behaves: when the query of `List` delivers no row and no error,
the relational repository returns no error and the nil slice (`users` is declared and
never appended to), and the `List` handler responds 200 with the JSON value `null`, not
the array `[]`. -/
theorem list_of_empty_table_is_nil_and_null {δ : Type} (db : DB δ) (r : Request) (t t1 : δ)
    (hempty : db.QueryContext mysqlUserRepository.listQuery [] t = (.ok ⟨[], none⟩, t1)) :
    (mysqlUserRepository.List db t).1 = (none, none) ∧
    (UserHandler.List (NewMySQLUserRepository db) NewRecorder r t).w.Code = 200 ∧
    (UserHandler.List (NewMySQLUserRepository db) NewRecorder r t).w.Body = [JSON.null] ∧
    (UserHandler.List (NewMySQLUserRepository db) NewRecorder r t).w.Body ≠
      [JSON.array []] := by
  have hl : mysqlUserRepository.List db t = ((none, none), t1) := by
    simp [mysqlUserRepository.List, hempty, mysqlUserRepository.scanLoop]
  have hh : (UserHandler.List (NewMySQLUserRepository db) NewRecorder r t).w =
      ⟨[("Content-Type", "application/json")], true, 200, [JSON.null]⟩ := by
    have hrepo : (NewMySQLUserRepository db).List t = ((none, none), t1) := hl
    simp [UserHandler.List, hrepo, encode_users_newRecorder]
  rw [hl, hh]
  simp

/-- The request `GET /users` on the connection of `main` with an empty table: the
repository returns the nil slice and the body is `null`; the in-memory repository of the
tests, whose `List` makes a non-nil slice, gives the array `[]` on the same request. -/
theorem list_of_empty_table_example :
    (mysqlUserRepository.List mainDB ⟨[], 1⟩).1 = (none, none) ∧
    (UserHandler.List (NewMySQLUserRepository mainDB) NewRecorder
      ⟨[], .error (.New "EOF")⟩ ⟨[], 1⟩).w =
      ⟨[("Content-Type", "application/json")], true, 200, [JSON.null]⟩ ∧
    (UserHandler.List newMockUserRepository NewRecorder ⟨[], .error (.New "EOF")⟩ []).w =
      ⟨[("Content-Type", "application/json")], true, 200, [JSON.array []]⟩ :=
  ⟨(list_of_empty_table_is_nil_and_null mainDB ⟨[], .error (.New "EOF")⟩ ⟨[], 1⟩ ⟨[], 1⟩
    rfl).1, rfl, rfl⟩

/-! ## Theorems: the body of a 500 response -/

theorem create_500_response {σ : Type} (repo : UserRepository σ) (r : Request) (s : σ)
    (h : (UserHandler.Create repo NewRecorder r s).w.Code = 500) :
    (UserHandler.Create repo NewRecorder r s).w =
      ⟨[("Content-Type", "application/json")], true, 500,
        [.object [("error", .string "Error creating user")]]⟩ := by
  unfold UserHandler.Create at h ⊢
  rcases hb : r.Body with e | u
  · simp [hb, respondWithError_newRecorder, StatusBadRequest] at h
  · rcases hv : u.Validate with _ | m
    · rcases hc : repo.Create u s with ⟨⟨u1, _ | e⟩, s1⟩
      · simp [hb, hv, hc, encode_user_newRecorder, StatusCreated] at h
      · simp [hb, hv, hc, respondWithError_newRecorder, StatusInternalServerError]
    · simp [hb, hv, respondWithError_newRecorder, StatusBadRequest] at h

theorem getByID_500_response {σ : Type} (repo : UserRepository σ) (r : Request) (s : σ)
    (h : (UserHandler.GetByID repo NewRecorder r s).w.Code = 500) :
    (UserHandler.GetByID repo NewRecorder r s).w =
      ⟨[("Content-Type", "application/json")], true, 500,
        [.object [("error", .string "Error retrieving user")]]⟩ := by
  unfold UserHandler.GetByID at h ⊢
  rcases hid : ParseInt (r.Var "id") with _ | i
  · simp [hid, respondWithError_newRecorder, StatusBadRequest] at h
  · rcases hc : repo.GetByID i s with ⟨⟨_ | u1, _ | e⟩, s1⟩
    · simp [hid, hc, respondWithError_newRecorder, StatusNotFound] at h
    · simp [hid, hc, respondWithError_newRecorder, StatusInternalServerError]
    · simp [hid, hc, encode_user_newRecorder_implicit] at h
    · simp [hid, hc, respondWithError_newRecorder, StatusInternalServerError]

theorem update_500_response {σ : Type} (repo : UserRepository σ) (r : Request) (s : σ)
    (h : (UserHandler.Update repo NewRecorder r s).w.Code = 500) :
    (UserHandler.Update repo NewRecorder r s).w =
      ⟨[("Content-Type", "application/json")], true, 500,
        [.object [("error", .string "Error updating user")]]⟩ := by
  unfold UserHandler.Update at h ⊢
  rcases hid : ParseInt (r.Var "id") with _ | i
  · simp [hid, respondWithError_newRecorder, StatusBadRequest] at h
  · rcases hb : r.Body with e | u
    · simp [hid, hb, respondWithError_newRecorder, StatusBadRequest] at h
    · rcases hv : User.Validate { u with ID := i } with _ | m
      · rcases hc : repo.Update { u with ID := i } s with ⟨⟨u1, _ | e⟩, s1⟩
        · simp [hid, hb, hv, hc, encode_user_newRecorder_implicit] at h
        · by_cases he : e.Error = "user not found with ID: " ++ decimal i
          · simp [hid, hb, hv, hc, he, respondWithError_newRecorder, StatusNotFound] at h
          · simp [hid, hb, hv, hc, he, respondWithError_newRecorder,
              StatusInternalServerError]
      · simp [hid, hb, hv, respondWithError_newRecorder, StatusBadRequest] at h

theorem delete_500_response {σ : Type} (repo : UserRepository σ) (r : Request) (s : σ)
    (h : (UserHandler.Delete repo NewRecorder r s).w.Code = 500) :
    (UserHandler.Delete repo NewRecorder r s).w =
      ⟨[("Content-Type", "application/json")], true, 500,
        [.object [("error", .string "Error deleting user")]]⟩ := by
  unfold UserHandler.Delete at h ⊢
  rcases hid : ParseInt (r.Var "id") with _ | i
  · simp [hid, respondWithError_newRecorder, StatusBadRequest] at h
  · rcases hc : repo.Delete i s with ⟨_ | e, s1⟩
    · simp [hid, hc, NewRecorder, ResponseWriter.WriteHeader, StatusNoContent] at h
    · by_cases he : e.Error = "user not found with ID: " ++ decimal i
      · simp [hid, hc, he, respondWithError_newRecorder, StatusNotFound] at h
      · simp [hid, hc, he, respondWithError_newRecorder, StatusInternalServerError]

theorem list_500_response {σ : Type} (repo : UserRepository σ) (r : Request) (s : σ)
    (h : (UserHandler.List repo NewRecorder r s).w.Code = 500) :
    (UserHandler.List repo NewRecorder r s).w =
      ⟨[("Content-Type", "application/json")], true, 500,
        [.object [("error", .string "Error retrieving users")]]⟩ := by
  unfold UserHandler.List at h ⊢
  rcases hc : repo.List s with ⟨⟨us, _ | e⟩, s1⟩
  · simp [hc, encode_users_newRecorder] at h
  · simp [hc, respondWithError_newRecorder, StatusInternalServerError]

/-- Claim C10: a 500 response carries no detail of the repository error.  For each of the
handlers `Create`, `GetByID`, `Update`, `Delete` and `List`, two runs on the same request
that both end with status 500, over any two repositories and stores (so with any two
errors), leave the same response, header and body, and the body is the fixed message of
the operation. -/
theorem internal_error_response_is_generic {σ₁ σ₂ : Type} (repo₁ : UserRepository σ₁)
    (repo₂ : UserRepository σ₂) (r : Request) (s₁ : σ₁) (s₂ : σ₂) :
    ((UserHandler.Create repo₁ NewRecorder r s₁).w.Code = 500 →
      (UserHandler.Create repo₂ NewRecorder r s₂).w.Code = 500 →
      (UserHandler.Create repo₁ NewRecorder r s₁).w =
        (UserHandler.Create repo₂ NewRecorder r s₂).w ∧
      (UserHandler.Create repo₁ NewRecorder r s₁).w.Body =
        [.object [("error", .string "Error creating user")]]) ∧
    ((UserHandler.GetByID repo₁ NewRecorder r s₁).w.Code = 500 →
      (UserHandler.GetByID repo₂ NewRecorder r s₂).w.Code = 500 →
      (UserHandler.GetByID repo₁ NewRecorder r s₁).w =
        (UserHandler.GetByID repo₂ NewRecorder r s₂).w ∧
      (UserHandler.GetByID repo₁ NewRecorder r s₁).w.Body =
        [.object [("error", .string "Error retrieving user")]]) ∧
    ((UserHandler.Update repo₁ NewRecorder r s₁).w.Code = 500 →
      (UserHandler.Update repo₂ NewRecorder r s₂).w.Code = 500 →
      (UserHandler.Update repo₁ NewRecorder r s₁).w =
        (UserHandler.Update repo₂ NewRecorder r s₂).w ∧
      (UserHandler.Update repo₁ NewRecorder r s₁).w.Body =
        [.object [("error", .string "Error updating user")]]) ∧
    ((UserHandler.Delete repo₁ NewRecorder r s₁).w.Code = 500 →
      (UserHandler.Delete repo₂ NewRecorder r s₂).w.Code = 500 →
      (UserHandler.Delete repo₁ NewRecorder r s₁).w =
        (UserHandler.Delete repo₂ NewRecorder r s₂).w ∧
      (UserHandler.Delete repo₁ NewRecorder r s₁).w.Body =
        [.object [("error", .string "Error deleting user")]]) ∧
    ((UserHandler.List repo₁ NewRecorder r s₁).w.Code = 500 →
      (UserHandler.List repo₂ NewRecorder r s₂).w.Code = 500 →
      (UserHandler.List repo₁ NewRecorder r s₁).w =
        (UserHandler.List repo₂ NewRecorder r s₂).w ∧
      (UserHandler.List repo₁ NewRecorder r s₁).w.Body =
        [.object [("error", .string "Error retrieving users")]]) := by
  refine ⟨?_, ?_, ?_, ?_, ?_⟩
  · intro h1 h2
    rw [create_500_response repo₁ r s₁ h1, create_500_response repo₂ r s₂ h2]
    exact ⟨rfl, rfl⟩
  · intro h1 h2
    rw [getByID_500_response repo₁ r s₁ h1, getByID_500_response repo₂ r s₂ h2]
    exact ⟨rfl, rfl⟩
  · intro h1 h2
    rw [update_500_response repo₁ r s₁ h1, update_500_response repo₂ r s₂ h2]
    exact ⟨rfl, rfl⟩
  · intro h1 h2
    rw [delete_500_response repo₁ r s₁ h1, delete_500_response repo₂ r s₂ h2]
    exact ⟨rfl, rfl⟩
  · intro h1 h2
    rw [list_500_response repo₁ r s₁ h1, list_500_response repo₂ r s₂ h2]
    exact ⟨rfl, rfl⟩

/-- Two connections that fail with different driver errors, on the same requests: every
handler answers 500 on both, and `Create` leaves the same response on both, with the body
"Error creating user". -/
theorem internal_error_response_examples :
    (UserHandler.Create (NewMySQLUserRepository (brokenDB (.New "dial tcp: connection refused")))
      NewRecorder ⟨[("id", "1")], .ok ⟨0, "John Doe", 30, "+1234567890", "john@example.com"⟩⟩
      ⟨[], 1⟩).w.Code = 500 ∧
    (UserHandler.Create
      (NewMySQLUserRepository (brokenDB (.New "Error 1062: Duplicate entry for key email")))
      NewRecorder ⟨[("id", "1")], .ok ⟨0, "John Doe", 30, "+1234567890", "john@example.com"⟩⟩
      ⟨[], 1⟩).w.Code = 500 ∧
    ((UserHandler.Create (NewMySQLUserRepository (brokenDB (.New "dial tcp: connection refused")))
      NewRecorder ⟨[("id", "1")], .ok ⟨0, "John Doe", 30, "+1234567890", "john@example.com"⟩⟩
      ⟨[], 1⟩).w =
      (UserHandler.Create
        (NewMySQLUserRepository (brokenDB (.New "Error 1062: Duplicate entry for key email")))
        NewRecorder
        ⟨[("id", "1")], .ok ⟨0, "John Doe", 30, "+1234567890", "john@example.com"⟩⟩
        ⟨[], 1⟩).w ∧
    (UserHandler.Create (NewMySQLUserRepository (brokenDB (.New "dial tcp: connection refused")))
      NewRecorder ⟨[("id", "1")], .ok ⟨0, "John Doe", 30, "+1234567890", "john@example.com"⟩⟩
      ⟨[], 1⟩).w.Body = [.object [("error", .string "Error creating user")]]) ∧
    (UserHandler.GetByID (NewMySQLUserRepository (brokenDB (.New "dial tcp: connection refused")))
      NewRecorder ⟨[("id", "1")], .ok ⟨0, "John Doe", 30, "+1234567890", "john@example.com"⟩⟩
      ⟨[], 1⟩).w.Code = 500 ∧
    (UserHandler.Update (NewMySQLUserRepository (brokenDB (.New "dial tcp: connection refused")))
      NewRecorder ⟨[("id", "1")], .ok ⟨0, "John Doe", 30, "+1234567890", "john@example.com"⟩⟩
      ⟨[], 1⟩).w.Code = 500 ∧
    (UserHandler.Delete (NewMySQLUserRepository (brokenDB (.New "dial tcp: connection refused")))
      NewRecorder ⟨[("id", "1")], .ok ⟨0, "John Doe", 30, "+1234567890", "john@example.com"⟩⟩
      ⟨[], 1⟩).w.Code = 500 ∧
    (UserHandler.List (NewMySQLUserRepository (brokenDB (.New "dial tcp: connection refused")))
      NewRecorder ⟨[("id", "1")], .ok ⟨0, "John Doe", 30, "+1234567890", "john@example.com"⟩⟩
      ⟨[], 1⟩).w.Code = 500 :=
  ⟨rfl, rfl,
    (internal_error_response_is_generic
      (NewMySQLUserRepository (brokenDB (.New "dial tcp: connection refused")))
      (NewMySQLUserRepository (brokenDB (.New "Error 1062: Duplicate entry for key email")))
      ⟨[("id", "1")], .ok ⟨0, "John Doe", 30, "+1234567890", "john@example.com"⟩⟩
      ⟨[], 1⟩ ⟨[], 1⟩).1 rfl rfl, rfl, rfl, rfl, rfl⟩

/-! ## Theorems: the shape of an accepted email -/

theorem char_le_iff_toNat_le (a c : Char) : a ≤ c ↔ a.toNat ≤ c.toNat := Iff.rfl

/-- Every letter of the pattern lies between `A` and `z`. -/
theorem isLetter_toNat_bounds {c : Char} (h : IsLetter c) : 65 ≤ c.toNat ∧ c.toNat ≤ 122 := by
  unfold IsLetter at h
  simp only [char_le_iff_toNat_le] at h
  have ha : 'a'.toNat = 97 := rfl
  have hz : 'z'.toNat = 122 := rfl
  have hA : 'A'.toNat = 65 := rfl
  have hZ : 'Z'.toNat = 90 := rfl
  rw [ha, hz, hA, hZ] at h
  omega

theorem isLetter_ne_at {c : Char} (h : IsLetter c) : c ≠ '@' := by
  rintro rfl
  have h2 := isLetter_toNat_bounds h
  have h3 : '@'.toNat = 64 := rfl
  omega

theorem isLetter_ne_dot {c : Char} (h : IsLetter c) : c ≠ '.' := by
  rintro rfl
  have h2 := isLetter_toNat_bounds h
  have h3 : '.'.toNat = 46 := rfl
  omega

/-- Every character of the local class lies between `%` and `z` and is not `@`. -/
theorem isLocalChar_toNat_bounds {c : Char} (h : IsLocalChar c) :
    37 ≤ c.toNat ∧ c.toNat ≤ 122 ∧ c.toNat ≠ 64 := by
  unfold IsLocalChar IsDigit at h
  rcases h with h | h | rfl | rfl | rfl | rfl | rfl
  · have h2 := isLetter_toNat_bounds h
    omega
  · simp only [char_le_iff_toNat_le] at h
    have h0 : '0'.toNat = 48 := rfl
    have h9 : '9'.toNat = 57 := rfl
    rw [h0, h9] at h
    omega
  all_goals decide

theorem isDomainChar_isLocalChar {c : Char} (h : IsDomainChar c) : IsLocalChar c := by
  unfold IsDomainChar at h
  unfold IsLocalChar
  tauto

theorem isLocalChar_ne_at {c : Char} (h : IsLocalChar c) : c ≠ '@' := by
  rintro rfl
  exact (isLocalChar_toNat_bounds h).2.2 rfl

theorem not_isSpace_of_toNat_bounds {c : Char} (h : 37 ≤ c.toNat ∧ c.toNat ≤ 122) :
    ¬ IsSpace c := by
  unfold IsSpace
  omega

/-- The characters of a text the pattern describes, one by one. -/
theorem matchesEmailPattern_chars {loc dom tld : List Char}
    (hlc : ∀ c ∈ loc, IsLocalChar c) (hdc : ∀ c ∈ dom, IsDomainChar c)
    (htc : ∀ c ∈ tld, IsLetter c) :
    '@' ∉ loc ∧ '@' ∉ dom ++ '.' :: tld ∧
    ∀ c ∈ loc ++ '@' :: (dom ++ '.' :: tld), 37 ≤ c.toNat ∧ c.toNat ≤ 122 := by
  refine ⟨fun hm => isLocalChar_ne_at (hlc _ hm) rfl, ?_, ?_⟩
  · intro hm
    rcases List.mem_append.1 hm with hm | hm
    · exact isLocalChar_ne_at (isDomainChar_isLocalChar (hdc _ hm)) rfl
    · rcases List.mem_cons.1 hm with hm | hm
      · exact absurd hm (by decide)
      · exact isLetter_ne_at (htc _ hm) rfl
  · intro c hc
    rcases List.mem_append.1 hc with hc | hc
    · have h := isLocalChar_toNat_bounds (hlc c hc)
      omega
    · rcases List.mem_cons.1 hc with rfl | hc
      · decide
      · rcases List.mem_append.1 hc with hc | hc
        · have h := isLocalChar_toNat_bounds (isDomainChar_isLocalChar (hdc c hc))
          omega
        · rcases List.mem_cons.1 hc with rfl | hc
          · decide
          · have h := isLetter_toNat_bounds (htc c hc)
            omega

/-- Claim C11: an email `Validate` accepts contains exactly one `@`; wherever the text is
split at an `@`, the part before is non-empty and made of letters, digits and the
characters `. _ % + -`, and the part after contains a dot and ends with a dot followed by
at least two ASCII letters; no character of the email is white space, and the email does
not end with a newline. -/
theorem accepted_email_structure (u : User) (h : u.Validate = none) :
    u.Email.data.count '@' = 1 ∧
    (∃ loc rest : List Char, u.Email.data = loc ++ '@' :: rest) ∧
    (∀ loc rest : List Char, u.Email.data = loc ++ '@' :: rest →
      loc ≠ [] ∧ (∀ c ∈ loc, IsLocalChar c) ∧ '.' ∈ rest ∧
      ∃ pre tld : List Char, rest = pre ++ '.' :: tld ∧ 2 ≤ tld.length ∧
        ∀ c ∈ tld, IsLetter c) ∧
    (∀ c ∈ u.Email.data, ¬ IsSpace c) ∧
    (∀ pre : List Char, u.Email.data ≠ pre ++ ['\n']) := by
  obtain ⟨loc, dom, tld, hdata, hl, hlc, -, hdc, ht, htc⟩ := ((validate_eq_none_iff u).1 h).2.2.2
  obtain ⟨hnl, hnr, hchars⟩ := matchesEmailPattern_chars hlc hdc htc
  rw [hdata]
  have hspace : ∀ c ∈ loc ++ '@' :: (dom ++ '.' :: tld), ¬ IsSpace c :=
    fun c hc => not_isSpace_of_toNat_bounds (hchars c hc)
  refine ⟨?_, ⟨loc, _, rfl⟩, ?_, hspace, ?_⟩
  · rw [List.count_append, List.count_cons_self, List.count_eq_zero.2 hnl,
      List.count_eq_zero.2 hnr]
  · intro loc2 rest2 h2
    obtain ⟨rfl, -, rfl⟩ := (List.append_cons_inj_of_not_mem hnl hnr).1 h2
    exact ⟨hl, hlc, by simp, dom, tld, rfl, ht, htc⟩
  · intro pre hpre
    have hmem : '\n' ∈ loc ++ '@' :: (dom ++ '.' :: tld) := by
      rw [hpre]
      simp
    have hb := hchars _ hmem
    have hn : '\n'.toNat = 10 := rfl
    omega

/-- The email `john@example.com` is accepted and has the structure of the claim; the same
email followed by a newline or with a blank inside, an email with two `@`, with nothing
before the `@`, with no dot after it, or with a single letter after the last dot are all
rejected. -/
theorem accepted_email_structure_examples :
    User.Validate ⟨0, "John Doe", 30, "+1234567890", "john@example.com"⟩ = none ∧
    "john@example.com".data.count '@' = 1 ∧
    (∀ c ∈ "john@example.com".data, ¬ IsSpace c) ∧
    User.Validate ⟨0, "John Doe", 30, "+1234567890", "john@example.com\n"⟩ ≠ none ∧
    User.Validate ⟨0, "John Doe", 30, "+1234567890", "john doe@example.com"⟩ ≠ none ∧
    User.Validate ⟨0, "John Doe", 30, "+1234567890", "john@doe@example.com"⟩ ≠ none ∧
    User.Validate ⟨0, "John Doe", 30, "+1234567890", "@example.com"⟩ ≠ none ∧
    User.Validate ⟨0, "John Doe", 30, "+1234567890", "john@example"⟩ ≠ none ∧
    User.Validate ⟨0, "John Doe", 30, "+1234567890", "john@example.c"⟩ ≠ none :=
  ⟨by decide,
    (accepted_email_structure ⟨0, "John Doe", 30, "+1234567890", "john@example.com"⟩
      (by decide)).1,
    (accepted_email_structure ⟨0, "John Doe", 30, "+1234567890", "john@example.com"⟩
      (by decide)).2.2.2.1,
    by decide, by decide, by decide, by decide, by decide, by decide⟩

/-! ## Theorems: the Content-Type of the success responses -/

theorem create_header {σ : Type} (repo : UserRepository σ) (r : Request) (s : σ) :
    (UserHandler.Create repo NewRecorder r s).w.Header =
      [("Content-Type", "application/json")] := by
  unfold UserHandler.Create
  rcases hb : r.Body with e | u
  · simp [respondWithError_newRecorder]
  · rcases hv : u.Validate with _ | m
    · rcases hc : repo.Create u s with ⟨⟨u1, _ | e⟩, s1⟩ <;>
        simp [hv, hc, respondWithError_newRecorder, encode_user_newRecorder]
    · simp [hv, respondWithError_newRecorder]

theorem getByID_header {σ : Type} (repo : UserRepository σ) (r : Request) (s : σ) :
    (UserHandler.GetByID repo NewRecorder r s).w.Header =
      [("Content-Type", "application/json")] := by
  unfold UserHandler.GetByID
  rcases hid : ParseInt (r.Var "id") with _ | i
  · simp [respondWithError_newRecorder]
  · rcases hc : repo.GetByID i s with ⟨⟨_ | u1, _ | e⟩, s1⟩ <;>
      simp [hc, respondWithError_newRecorder, encode_user_newRecorder_implicit]

theorem update_header {σ : Type} (repo : UserRepository σ) (r : Request) (s : σ) :
    (UserHandler.Update repo NewRecorder r s).w.Header =
      [("Content-Type", "application/json")] := by
  unfold UserHandler.Update
  rcases hid : ParseInt (r.Var "id") with _ | i
  · simp [respondWithError_newRecorder]
  · rcases hb : r.Body with e | u
    · simp [hb, respondWithError_newRecorder]
    · rcases hv : User.Validate { u with ID := i } with _ | m
      · rcases hc : repo.Update { u with ID := i } s with ⟨⟨u1, _ | e⟩, s1⟩
        · simp [hb, hv, hc, encode_user_newRecorder_implicit]
        · by_cases he : e.Error = "user not found with ID: " ++ decimal i <;>
            simp [hb, hv, hc, he, respondWithError_newRecorder]
      · simp [hb, hv, respondWithError_newRecorder]

theorem list_header {σ : Type} (repo : UserRepository σ) (r : Request) (s : σ) :
    (UserHandler.List repo NewRecorder r s).w.Header =
      [("Content-Type", "application/json")] := by
  unfold UserHandler.List
  rcases hc : repo.List s with ⟨⟨us, _ | e⟩, s1⟩ <;>
    simp [hc, respondWithError_newRecorder, encode_users_newRecorder]

theorem delete_204_response {σ : Type} (repo : UserRepository σ) (r : Request) (s : σ)
    (h : (UserHandler.Delete repo NewRecorder r s).w.Code = 204) :
    (UserHandler.Delete repo NewRecorder r s).w = ⟨[], true, 204, []⟩ := by
  unfold UserHandler.Delete at h ⊢
  rcases hid : ParseInt (r.Var "id") with _ | i
  · simp [hid, respondWithError_newRecorder, StatusBadRequest] at h
  · rcases hc : repo.Delete i s with ⟨_ | e, s1⟩
    · simp [hc, NewRecorder, ResponseWriter.WriteHeader, StatusNoContent]
    · by_cases he : e.Error = "user not found with ID: " ++ decimal i
      · simp [hid, hc, he, respondWithError_newRecorder, StatusNotFound] at h
      · simp [hid, hc, he, respondWithError_newRecorder, StatusInternalServerError] at h

/-- Claim C12 fails for `Delete`: `DELETE /users/1` on the connection of `main` with John
Doe stored under id 1 is answered 204, the row is gone, and the response has no
Content-Type header at all. -/
theorem delete_success_without_content_type :
    (UserHandler.Delete (NewMySQLUserRepository mainDB) NewRecorder
      ⟨[("id", "1")], .error (.New "EOF")⟩
      ⟨[⟨1, "John Doe", 30, "+1234567890", "john@example.com"⟩], 2⟩).w.Code = 204 ∧
    (UserHandler.Delete (NewMySQLUserRepository mainDB) NewRecorder
      ⟨[("id", "1")], .error (.New "EOF")⟩
      ⟨[⟨1, "John Doe", 30, "+1234567890", "john@example.com"⟩], 2⟩).store = ⟨[], 2⟩ ∧
    (UserHandler.Delete (NewMySQLUserRepository mainDB) NewRecorder
      ⟨[("id", "1")], .error (.New "EOF")⟩
      ⟨[⟨1, "John Doe", 30, "+1234567890", "john@example.com"⟩], 2⟩).w.Header.lookup
        "Content-Type" = none ∧
    (UserHandler.Delete (NewMySQLUserRepository mainDB) NewRecorder
      ⟨[("id", "1")], .error (.New "EOF")⟩
      ⟨[⟨1, "John Doe", 30, "+1234567890", "john@example.com"⟩], 2⟩).w.Header.lookup
        "Content-Type" ≠ some "application/json" := by
  refine ⟨rfl, rfl, rfl, ?_⟩
  intro h
  have hnone : (UserHandler.Delete (NewMySQLUserRepository mainDB) NewRecorder
      ⟨[("id", "1")], .error (.New "EOF")⟩
      ⟨[⟨1, "John Doe", 30, "+1234567890", "john@example.com"⟩], 2⟩).w.Header.lookup
        "Content-Type" = none := rfl
  rw [hnone] at h
  cases h

/-- Claim C12, amended: the success responses that have a body carry the header
`Content-Type: application/json`: `Ping` always answers 200 with it, and `Create` with 201,
`GetByID`, `Update` and `List` with 200 carry it; the success response of `Delete`, 204,
has no body and no header. -/
theorem success_responses_with_body_are_json {σ : Type} (repo : UserRepository σ)
    (r : Request) (s : σ) :
    ((PingHandler.Ping NewRecorder r).Code = 200 ∧
      (PingHandler.Ping NewRecorder r).Header.lookup "Content-Type" =
        some "application/json" ∧
      (PingHandler.Ping NewRecorder r).Body = [.object [("message", .string "pong")]]) ∧
    ((UserHandler.Create repo NewRecorder r s).w.Code = 201 →
      (UserHandler.Create repo NewRecorder r s).w.Header.lookup "Content-Type" =
        some "application/json") ∧
    ((UserHandler.GetByID repo NewRecorder r s).w.Code = 200 →
      (UserHandler.GetByID repo NewRecorder r s).w.Header.lookup "Content-Type" =
        some "application/json") ∧
    ((UserHandler.Update repo NewRecorder r s).w.Code = 200 →
      (UserHandler.Update repo NewRecorder r s).w.Header.lookup "Content-Type" =
        some "application/json") ∧
    ((UserHandler.List repo NewRecorder r s).w.Code = 200 →
      (UserHandler.List repo NewRecorder r s).w.Header.lookup "Content-Type" =
        some "application/json") ∧
    ((UserHandler.Delete repo NewRecorder r s).w.Code = 204 →
      (UserHandler.Delete repo NewRecorder r s).w.Header = [] ∧
      (UserHandler.Delete repo NewRecorder r s).w.Body = []) := by
  refine ⟨⟨rfl, rfl, rfl⟩, ?_, ?_, ?_, ?_, ?_⟩
  · intro _
    rw [create_header]
    rfl
  · intro _
    rw [getByID_header]
    rfl
  · intro _
    rw [update_header]
    rfl
  · intro _
    rw [list_header]
    rfl
  · intro h
    rw [delete_204_response repo r s h]
    exact ⟨rfl, rfl⟩

/-- The five requests with a body in the answer, on the connection of `main` with John Doe
stored under id 1: each is answered with its success status and the header
`Content-Type: application/json`. -/
theorem success_responses_examples :
    (UserHandler.Create (NewMySQLUserRepository mainDB) NewRecorder
      ⟨[], .ok ⟨0, "Jane Doe", 31, "+1987654321", "jane@example.com"⟩⟩
      ⟨[⟨1, "John Doe", 30, "+1234567890", "john@example.com"⟩], 2⟩).w.Code = 201 ∧
    (UserHandler.Create (NewMySQLUserRepository mainDB) NewRecorder
      ⟨[], .ok ⟨0, "Jane Doe", 31, "+1987654321", "jane@example.com"⟩⟩
      ⟨[⟨1, "John Doe", 30, "+1234567890", "john@example.com"⟩], 2⟩).w.Header.lookup
        "Content-Type" = some "application/json" ∧
    (UserHandler.GetByID (NewMySQLUserRepository mainDB) NewRecorder
      ⟨[("id", "1")], .error (.New "EOF")⟩
      ⟨[⟨1, "John Doe", 30, "+1234567890", "john@example.com"⟩], 2⟩).w =
      ⟨[("Content-Type", "application/json")], true, 200,
        [.object [("id", .number 1), ("name", .string "John Doe"), ("age", .number 30),
          ("phone_number", .string "+1234567890"), ("email", .string "john@example.com")]]⟩ ∧
    (UserHandler.Update (NewMySQLUserRepository mainDB) NewRecorder
      ⟨[("id", "1")], .ok ⟨0, "Jane Doe", 31, "+1987654321", "jane@example.com"⟩⟩
      ⟨[⟨1, "John Doe", 30, "+1234567890", "john@example.com"⟩], 2⟩).w.Code = 200 ∧
    (UserHandler.List (NewMySQLUserRepository mainDB) NewRecorder
      ⟨[], .error (.New "EOF")⟩
      ⟨[⟨1, "John Doe", 30, "+1234567890", "john@example.com"⟩], 2⟩).w =
      ⟨[("Content-Type", "application/json")], true, 200,
        [.array [.object [("id", .number 1), ("name", .string "John Doe"),
          ("age", .number 30), ("phone_number", .string "+1234567890"),
          ("email", .string "john@example.com")]]]⟩ ∧
    PingHandler.Ping NewRecorder ⟨[], .error (.New "EOF")⟩ =
      ⟨[("Content-Type", "application/json")], true, 200,
        [.object [("message", .string "pong")]]⟩ :=
  ⟨rfl,
    (success_responses_with_body_are_json (NewMySQLUserRepository mainDB)
      ⟨[], .ok ⟨0, "Jane Doe", 31, "+1987654321", "jane@example.com"⟩⟩
      ⟨[⟨1, "John Doe", 30, "+1234567890", "john@example.com"⟩], 2⟩).2.1 rfl,
    rfl, rfl, rfl, rfl⟩

end UserAPI
